import Mathlib

/-!
# ZYCDepth: the shared coordinator (`SharedContext`)

A shallow embedding of `src/Data/CommonTypes.h` and `src/Data/CommonTypes.cpp`, of
`ScreenGrabber::setConfig` and `ScreenGrabber::grab` (`src/ScreenGrabber/ScreenGrabber.cpp`), of
`SystemManager::stop` and the bodies of the capture and inference loops
(`src/Thread/SystemManager.cpp`), and of `base64_encode` (`src/WebSocket/WebSocketServer.cpp`).

* Every member function of `SharedContext` either holds `mtx` for its whole body or performs a
  single atomic store, so each call is one atomic step on the record `SharedContext`.
* `long long` is `Int`, `int` is `Int`, `uint64_t` is `Nat` with an explicit `% 2 ^ 64` on the
  increment, `HWND` is the pointer value as a `Nat` (`0` is `nullptr`).
* `std::shared_ptr<cv::Mat>` is `Option Mat` (`none` is the null pointer).
* `double` values are only stored and copied by the coordinator; they are carried as their
  IEEE-754 bit pattern.
* The Win32 calls used by `setCurrentCaptureConfig` are the fields of `Win32`.
* The platform calls of the `WinGCCaptureStrategy` constructor are the fields of `Direct3D`; a
  failed `winrt::check_hresult` throws, which is `Except.error` with the `HRESULT`.
* The backends' `capture` and the engine's `predict` are given functions.
* The capture loop's counter `frameID` is a `long long`: `++frameID` is the successor wrapped
  into the 64-bit two's complement range (`wrapInt64`), which is what the increment does on the
  x64 target once the counter holds `2 ^ 63 - 1` (the C++ standard leaves that case undefined).
-/

namespace ZYCDepth

/-! ## Data model (`CommonTypes.h`) -/

/-- Window handle: the pointer value, `0` being `nullptr`. -/
abbrev HWND := Nat

/-- A `double`, carried as its bit pattern (`0` is `0.0`). -/
abbrev Double := Nat

/-- The `enum class CaptureMethod`. -/
inductive CaptureMethod where
  | GDI
  | DirectX
  | WinGC
  deriving DecidableEq, Repr

/-- The part of `cv::Mat` the program looks at: its dimensions and its pixel buffer. -/
structure Mat where
  rows : Nat := 0
  cols : Nat := 0
  data : List Nat := []
  deriving DecidableEq, Repr

/-- The method `cv::Mat::empty()`: no buffer or no element. -/
def Mat.empty (m : Mat) : Bool :=
  m.data.isEmpty || m.rows * m.cols == 0

/-- The `struct CaptureConfig`, with its default member initialisers. -/
structure CaptureConfig where
  Method : CaptureMethod := CaptureMethod.WinGC
  targetWindowName : String := "GameProcess"
  targetHwnd : HWND := 0
  captureFps : Int := 30
  deriving DecidableEq, Repr

/-- The member `CaptureConfig::operator!=`. -/
def CaptureConfig.ne (self other : CaptureConfig) : Bool :=
  (self.Method != other.Method) ||
  (self.targetWindowName != other.targetWindowName) ||
  (self.targetHwnd != other.targetHwnd) ||
  (self.captureFps != other.captureFps)

/-- The member `CaptureConfig::operator==`, written in the source as `!(*this != other)`. -/
def CaptureConfig.eq (self other : CaptureConfig) : Bool :=
  !(self.ne other)

/-- The `struct FrameData`, with its default member initialisers. -/
structure FrameData where
  image : Option Mat := none
  rawDepth : Option Mat := none
  intrinsics : Mat := {}
  extrinsics : Mat := {}
  sequenceID : Int := -1
  timestamp : Double := 0
  captureDurationMs : Double := 0
  deriving DecidableEq, Repr

/-- The member `FrameData::empty`: `!image || image->empty()`. -/
def FrameData.empty (f : FrameData) : Bool :=
  match f.image with
  | none => true
  | some m => m.empty

/-- What a `FrameData` holds after it has been the source of the implicit move assignment:
the two `shared_ptr`s are null, the two `cv::Mat`s are released, the scalars are as before. -/
def FrameData.movedFrom (f : FrameData) : FrameData :=
  { f with image := none, rawDepth := none, intrinsics := {}, extrinsics := {} }

/-- The data members of `class SharedContext` (the mutex and the condition variable apart),
with their initial values. -/
structure SharedContext where
  configVersion : Nat := 0
  currentCaptureConfig : CaptureConfig := {}
  isMapping : Bool := false
  isInferencing : Bool := false
  currentFrame : FrameData := {}
  currentDepthFrame : FrameData := {}
  lastCaptureTimeMs : Double := 0
  lastInferenceTimeMs : Double := 0
  deriving DecidableEq, Repr

/-! ## The environment -/

/-- The code pages named in `CommonTypes.cpp`. -/
inductive CodePage where
  | CP_UTF8
  | CP_ACP
  deriving DecidableEq, Repr

/-- The Win32 calls of `CommonTypes.cpp`. `MultiByteToWideChar cp s` is the wide string the call
writes for the NUL-terminated `s` (terminator included, `[]` when the call reports a length
`≤ 0`); `WideCharToMultiByte cp w` likewise for the opposite direction; `FindWindowA name` is
the handle of the top-level window with that title, `0` when there is none. -/
structure Win32 where
  MultiByteToWideChar : CodePage → String → List Nat
  WideCharToMultiByte : CodePage → List Nat → List Char
  FindWindowA : String → HWND

/-! ## Operations (`CommonTypes.cpp`) -/

namespace SharedContext

/-- The static member `Utf8ToGbk`. -/
def Utf8ToGbk (w : Win32) (strUtf8 : String) : String :=
  if strUtf8.isEmpty then ""
  else
    let wstr := w.MultiByteToWideChar CodePage.CP_UTF8 strUtf8
    if wstr.length ≤ 0 then ""
    else
      let strGbk := w.WideCharToMultiByte CodePage.CP_ACP wstr
      if strGbk.length ≤ 0 then ""
      else if strGbk.getLast? = some (Char.ofNat 0) then String.mk strGbk.dropLast
      else String.mk strGbk

/-- The handle `setCurrentCaptureConfig` finds for a window name:
`FindWindowA(NULL, Utf8ToGbk(name).c_str())`. -/
def resolveHwnd (w : Win32) (targetWindowName : String) : HWND :=
  w.FindWindowA (Utf8ToGbk w targetWindowName)

/-- The local `config` of `setCurrentCaptureConfig` after `config.targetHwnd = foundHwnd`: the
argument with its handle overwritten by the one found for its window name. -/
def resolvedConfig (w : Win32) (config : CaptureConfig) : CaptureConfig :=
  { config with targetHwnd := resolveHwnd w config.targetWindowName }

/-- The member `getCurrentCaptureConfig`. -/
def getCurrentCaptureConfig (s : SharedContext) : CaptureConfig :=
  s.currentCaptureConfig

/-- The member `setCurrentCaptureConfig`: the handle of the by-value argument is overwritten
with the one found for its window name, then the result is stored and the version incremented
(a `uint64_t`) when it differs from the stored configuration. -/
def setCurrentCaptureConfig (w : Win32) (s : SharedContext) (config : CaptureConfig) :
    SharedContext :=
  let config := resolvedConfig w config
  if s.currentCaptureConfig.ne config then
    { s with currentCaptureConfig := config
             configVersion := (s.configVersion + 1) % 2 ^ 64 }
  else s

/-- The member `getCaptureConfigVersion`. -/
def getCaptureConfigVersion (s : SharedContext) : Nat :=
  s.configVersion

/-- The member `getIsMapping`. -/
def getIsMapping (s : SharedContext) : Bool :=
  s.isMapping

/-- The member `setIsMapping`. -/
def setIsMapping (s : SharedContext) (state : Bool) : SharedContext :=
  { s with isMapping := state }

/-- The member `setCurrentFrame`. The argument is an rvalue reference: the second component is
what the caller's object holds afterwards (moved from when the frame was stored). -/
def setCurrentFrame (s : SharedContext) (frame : FrameData) : SharedContext × FrameData :=
  if frame.sequenceID > s.currentFrame.sequenceID then
    ({ s with currentFrame := frame }, frame.movedFrom)
  else (s, frame)

/-- The member `getCurrentFrame`. -/
def getCurrentFrame (s : SharedContext) : FrameData :=
  s.currentFrame

/-- The predicate `waitForNewFrame` passes to `cv_new_frame.wait`. -/
def waitPredicate (s : SharedContext) (lastID : Int) : Bool :=
  (!s.currentFrame.empty && decide (s.currentFrame.sequenceID > lastID)) || !s.isMapping

/-- The member `waitForNewFrame`, as a step taken in the state `s` in which the waiter holds
the mutex: `none` when the predicate is false there (the call stays blocked in `wait`),
otherwise the frame returned. -/
def waitForNewFrame (s : SharedContext) (lastID : Int) : Option FrameData :=
  if waitPredicate s lastID then
    if !s.isInferencing then some {}
    else some s.currentFrame
  else none

/-- The member `setCurrentDepthFrame`; the second component is the caller's moved-from
object. -/
def setCurrentDepthFrame (s : SharedContext) (frame : FrameData) : SharedContext × FrameData :=
  ({ s with currentDepthFrame := frame }, frame.movedFrom)

/-- The member `getCurrentDepthFrame`. -/
def getCurrentDepthFrame (s : SharedContext) : FrameData :=
  s.currentDepthFrame

/-- The member `getIsInferencing`. -/
def getIsInferencing (s : SharedContext) : Bool :=
  s.isInferencing

/-- The member `setIsInferencing`. -/
def setIsInferencing (s : SharedContext) (state : Bool) : SharedContext :=
  { s with isInferencing := state }

/-- The member `waitForNewFrame` as a transition: the coordinator state the call leaves behind
together with the frame it returns. The body only reads the members. -/
def waitForNewFrameStep (s : SharedContext) (lastID : Int) :
    Option (SharedContext × FrameData) :=
  match waitForNewFrame s lastID with
  | some r => some (s, r)
  | none => none

/-- The member `setCaptureTime`. -/
def setCaptureTime (s : SharedContext) (ms : Double) : SharedContext :=
  { s with lastCaptureTimeMs := ms }

/-- The member `setInferenceTime`. -/
def setInferenceTime (s : SharedContext) (ms : Double) : SharedContext :=
  { s with lastInferenceTimeMs := ms }

end SharedContext

/-! ## Runs of coordinator operations -/

/-- A call of one of the state-changing members of `SharedContext`, with its arguments; a
configuration call carries the Win32 environment it runs in. -/
inductive Op where
  | setCurrentFrame (frame : FrameData)
  | setCurrentDepthFrame (frame : FrameData)
  | setCurrentCaptureConfig (w : Win32) (config : CaptureConfig)
  | setIsMapping (state : Bool)
  | setIsInferencing (state : Bool)
  | setCaptureTime (ms : Double)
  | setInferenceTime (ms : Double)

/-- The state after one call. -/
def Op.apply (s : SharedContext) : Op → SharedContext
  | Op.setCurrentFrame frame => (s.setCurrentFrame frame).1
  | Op.setCurrentDepthFrame frame => (s.setCurrentDepthFrame frame).1
  | Op.setCurrentCaptureConfig w config => SharedContext.setCurrentCaptureConfig w s config
  | Op.setIsMapping state => s.setIsMapping state
  | Op.setIsInferencing state => s.setIsInferencing state
  | Op.setCaptureTime ms => s.setCaptureTime ms
  | Op.setInferenceTime ms => s.setInferenceTime ms

/-- The states a run visits after its start state, in order. -/
def statesAfter (s : SharedContext) : List Op → List SharedContext
  | [] => []
  | op :: ops => Op.apply s op :: statesAfter (Op.apply s op) ops

/-- The state at the end of a run. -/
def run (s : SharedContext) (ops : List Op) : SharedContext :=
  ops.foldl Op.apply s

/-- The state after submitting the frames of a list, in order, through `setCurrentFrame`. -/
def publishAll (s : SharedContext) (frames : List FrameData) : SharedContext :=
  frames.foldl (fun st f => (st.setCurrentFrame f).1) s

/-- The maximum of `-1` and the sequence numbers of a list of frames. -/
def maxSequenceID (frames : List FrameData) : Int :=
  (frames.map (fun f => f.sequenceID)).foldr max (-1)

/-! ## Capture backends (`ScreenGrabber.h`, `ScreenGrabber.cpp`) -/

/-- A Windows `HRESULT`; the negative values are the failures. -/
abbrev HRESULT := Int

/-- The platform calls made by the `WinGCCaptureStrategy` constructor, each with the `HRESULT`
it reports and the pointer it hands back. -/
structure Direct3D where
  init_apartment : HRESULT
  D3D11CreateDevice : HRESULT × Nat × Nat
  QueryInterface : Nat → HRESULT × Nat
  CreateDirect3D11DeviceFromDXGIDevice : Nat → HRESULT × Nat
  asIDirect3DDevice : Nat → HRESULT × Nat

/-- The function `winrt::check_hresult`: throws on a failure code. -/
def check_hresult (hr : HRESULT) : Except HRESULT Unit :=
  if hr < 0 then Except.error hr else Except.ok ()

/-- The data members of `class GDICaptureStrategy`, with their initial values (handles as
pointer values, `0` being `nullptr`). -/
structure GDICaptureStrategy where
  hScreenDC : Nat := 0
  hMemoryDC : Nat := 0
  hBitmap : Nat := 0
  hOldBitmap : Nat := 0
  cachedWidth : Int := 0
  cachedHeight : Int := 0
  deriving DecidableEq, Repr

/-- The data members of `class WinGCCaptureStrategy`, with their initial values. -/
structure WinGCCaptureStrategy where
  item : Nat := 0
  framePool : Nat := 0
  session : Nat := 0
  device : Nat := 0
  d3d11Device : Nat := 0
  d3d11Context : Nat := 0
  stagingTexture : Nat := 0
  currentHwnd : HWND := 0
  width : Int := 0
  height : Int := 0
  deriving DecidableEq, Repr

/-- The helper `CreateDirect3DDevice` of `ScreenGrabber.cpp`. -/
def CreateDirect3DDevice (d : Direct3D) (d3d11Device : Nat) : Except HRESULT Nat :=
  match check_hresult (d.QueryInterface d3d11Device).1 with
  | Except.error e => Except.error e
  | Except.ok _ =>
    match check_hresult (d.CreateDirect3D11DeviceFromDXGIDevice (d.QueryInterface d3d11Device).2).1
    with
    | Except.error e => Except.error e
    | Except.ok _ =>
      match check_hresult (d.asIDirect3DDevice
        (d.CreateDirect3D11DeviceFromDXGIDevice (d.QueryInterface d3d11Device).2).2).1 with
      | Except.error e => Except.error e
      | Except.ok _ =>
        Except.ok (d.asIDirect3DDevice
          (d.CreateDirect3D11DeviceFromDXGIDevice (d.QueryInterface d3d11Device).2).2).2

/-- The implicit constructor `GDICaptureStrategy::GDICaptureStrategy()`. -/
def GDICaptureStrategy.new : GDICaptureStrategy :=
  {}

/-- The constructor `WinGCCaptureStrategy::WinGCCaptureStrategy()`. -/
def WinGCCaptureStrategy.new (d : Direct3D) : Except HRESULT WinGCCaptureStrategy :=
  match check_hresult d.init_apartment with
  | Except.error e => Except.error e
  | Except.ok _ =>
    match check_hresult d.D3D11CreateDevice.1 with
    | Except.error e => Except.error e
    | Except.ok _ =>
      match CreateDirect3DDevice d d.D3D11CreateDevice.2.1 with
      | Except.error e => Except.error e
      | Except.ok device =>
        Except.ok { d3d11Device := d.D3D11CreateDevice.2.1
                    d3d11Context := d.D3D11CreateDevice.2.2
                    device := device }

/-- What a `std::unique_ptr<ICaptureStrategy>` can own: an object of one of the two classes
implementing the interface. -/
inductive CaptureStrategy where
  | gdi (st : GDICaptureStrategy)
  | winGC (st : WinGCCaptureStrategy)
  deriving DecidableEq, Repr

/-- The data members of `class ScreenGrabber`; `strategy` is `none` for a null `unique_ptr`. -/
structure ScreenGrabber where
  strategy : Option CaptureStrategy := none
  activeConfig : CaptureConfig := {}
  localConfigVersion : Nat := 0
  deriving DecidableEq, Repr

/-- The constructor `ScreenGrabber::ScreenGrabber()`. -/
def ScreenGrabber.new : ScreenGrabber :=
  { strategy := some (CaptureStrategy.gdi GDICaptureStrategy.new) }

/-- The member `ScreenGrabber::setConfig`. An exception of the `WinGCCaptureStrategy`
constructor leaves the function before `strategy` is assigned. -/
def ScreenGrabber.setConfig (d : Direct3D) (g : ScreenGrabber) (config : CaptureConfig) :
    Except HRESULT ScreenGrabber :=
  if g.activeConfig.eq config then Except.ok g
  else
    match config.Method with
    | CaptureMethod.GDI =>
      Except.ok { g with activeConfig := config
                         strategy := some (CaptureStrategy.gdi GDICaptureStrategy.new) }
    | CaptureMethod.DirectX =>
      Except.ok { g with activeConfig := config
                         strategy := some (CaptureStrategy.gdi GDICaptureStrategy.new) }
    | CaptureMethod.WinGC =>
      match WinGCCaptureStrategy.new d with
      | Except.error e => Except.error e
      | Except.ok st =>
        Except.ok { g with activeConfig := config
                           strategy := some (CaptureStrategy.winGC st) }

/-! ## Shutdown (`SystemManager.cpp`) -/

/-- The data member `isRunning` of `class SystemManager` (the thread handles apart). -/
structure SystemManager where
  isRunning : Bool := false
  deriving DecidableEq, Repr

/-- The member `SystemManager::stop`, as far as it acts on the run flag and the coordinator. -/
def SystemManager.stop (m : SystemManager) (ctx : SharedContext) :
    SystemManager × SharedContext :=
  if !m.isRunning then (m, ctx)
  else ({ m with isRunning := false }, (ctx.setIsMapping false).setIsInferencing false)

/-- The coordinator states `SystemManager::stop` passes through, in order: the one after its
call `setIsMapping(false)` and the one after its call `setIsInferencing(false)`; none when the
function returns at `if (!isRunning)`. The last one is the coordinator `stop` leaves behind. -/
def SystemManager.stopSteps (m : SystemManager) (ctx : SharedContext) : List SharedContext :=
  if !m.isRunning then []
  else [ctx.setIsMapping false, (ctx.setIsMapping false).setIsInferencing false]

/-! ## The grab (`ScreenGrabber::grab`) -/

/-- The two `capture` overrides, taken as given functions: from the state of the backend object
and the window handle to the returned flag, the image left in `result` and the state of the
backend object afterwards. -/
structure Backends where
  captureGDI : GDICaptureStrategy → HWND → Bool × Mat × GDICaptureStrategy
  captureWinGC : WinGCCaptureStrategy → HWND → Bool × Mat × WinGCCaptureStrategy

/-- The virtual call `strategy->capture(hwnd, rawImg)`. -/
def Backends.capture (b : Backends) (st : CaptureStrategy) (hwnd : HWND) :
    Bool × Mat × CaptureStrategy :=
  match st with
  | CaptureStrategy.gdi x =>
    ((b.captureGDI x hwnd).1, (b.captureGDI x hwnd).2.1,
      CaptureStrategy.gdi (b.captureGDI x hwnd).2.2)
  | CaptureStrategy.winGC x =>
    ((b.captureWinGC x hwnd).1, (b.captureWinGC x hwnd).2.1,
      CaptureStrategy.winGC (b.captureWinGC x hwnd).2.2)

/-- What one call of `grab` leaves behind: the grabber, the returned `shared_ptr` and, as a
count kept for the proofs, how often `strategy->capture` was called. -/
structure GrabOutcome where
  grabber : ScreenGrabber
  image : Option Mat
  captureCalls : Nat
  deriving DecidableEq, Repr

/-- The version check of `grab` (the `if` on `getCaptureConfigVersion()`): when the
coordinator's version differs from the cached one, the configuration is read, handed to
`setConfig`, and the version is cached. -/
def ScreenGrabber.sync (d : Direct3D) (ctx : SharedContext) (g : ScreenGrabber) :
    Except HRESULT ScreenGrabber :=
  if ctx.getCaptureConfigVersion != g.localConfigVersion then
    match g.setConfig d ctx.getCurrentCaptureConfig with
    | Except.error e => Except.error e
    | Except.ok g1 => Except.ok { g1 with localConfigVersion := ctx.getCaptureConfigVersion }
  else Except.ok g

/-- The part of `grab` after the version check: the null-handle test and the capture. The
`none` branch of the strategy is never taken, see `sync_strategy_isSome`. -/
def ScreenGrabber.grabActive (b : Backends) (g : ScreenGrabber) : GrabOutcome :=
  if g.activeConfig.targetHwnd = 0 then { grabber := g, image := none, captureCalls := 0 }
  else
    match g.strategy with
    | none => { grabber := g, image := none, captureCalls := 0 }
    | some st =>
      if (b.capture st g.activeConfig.targetHwnd).1 then
        if (b.capture st g.activeConfig.targetHwnd).2.1.empty then
          { grabber := { g with strategy := some (b.capture st g.activeConfig.targetHwnd).2.2 }
            image := none
            captureCalls := 1 }
        else
          { grabber := { g with strategy := some (b.capture st g.activeConfig.targetHwnd).2.2 }
            image := some (b.capture st g.activeConfig.targetHwnd).2.1
            captureCalls := 1 }
      else
        { grabber := { g with strategy := some (b.capture st g.activeConfig.targetHwnd).2.2 }
          image := none
          captureCalls := 1 }

/-- The member `ScreenGrabber::grab`, run against the coordinator state `ctx` (which it only
reads). -/
def ScreenGrabber.grab (d : Direct3D) (b : Backends) (ctx : SharedContext)
    (g : ScreenGrabber) : Except HRESULT GrabOutcome :=
  match g.strategy with
  | none => Except.ok { grabber := g, image := none, captureCalls := 0 }
  | some _ =>
    match g.sync d ctx with
    | Except.error e => Except.error e
    | Except.ok g1 => Except.ok (g1.grabActive b)

/-- The replacement policy of `setConfig`: the backend class installed for a capture method. -/
def prescribedFor (m : CaptureMethod) (st : CaptureStrategy) : Bool :=
  match m, st with
  | CaptureMethod.GDI, CaptureStrategy.gdi _ => true
  | CaptureMethod.DirectX, CaptureStrategy.gdi _ => true
  | CaptureMethod.WinGC, CaptureStrategy.winGC _ => true
  | _, _ => false

/-- The coordinator together with one grabber. -/
structure System where
  ctx : SharedContext := {}
  grabber : ScreenGrabber := ScreenGrabber.new
  deriving DecidableEq, Repr

/-- A configuration call on the coordinator or a `grab()` on the grabber, each with the
environment it runs in. -/
inductive SysOp where
  | setCurrentCaptureConfig (w : Win32) (config : CaptureConfig)
  | grab (d : Direct3D) (b : Backends)

/-- The system after one call; an exception leaving `grab` is `Except.error`. -/
def SysOp.apply (sys : System) : SysOp → Except HRESULT System
  | SysOp.setCurrentCaptureConfig w config =>
    Except.ok { sys with ctx := SharedContext.setCurrentCaptureConfig w sys.ctx config }
  | SysOp.grab d b =>
    match sys.grabber.grab d b sys.ctx with
    | Except.error e => Except.error e
    | Except.ok out => Except.ok { sys with grabber := out.grabber }

/-- The system states right after each `grab()` of a sequential run that returned, in order;
the run ends at the first exception. -/
def grabPoints (sys : System) : List SysOp → List System
  | [] => []
  | SysOp.setCurrentCaptureConfig w config :: ops =>
    grabPoints { sys with ctx := SharedContext.setCurrentCaptureConfig w sys.ctx config } ops
  | SysOp.grab d b :: ops =>
    match sys.grabber.grab d b sys.ctx with
    | Except.error _ => []
    | Except.ok out =>
      { sys with grabber := out.grabber } :: grabPoints { sys with grabber := out.grabber } ops

/-- The coordinator state at the end of a sequential run (grabs only read it). -/
def ctxAfter (ctx : SharedContext) : List SysOp → SharedContext
  | [] => ctx
  | SysOp.setCurrentCaptureConfig w config :: ops =>
    ctxAfter (SharedContext.setCurrentCaptureConfig w ctx config) ops
  | SysOp.grab _ _ :: ops => ctxAfter ctx ops

/-- The number of configuration calls of a run that changed the stored configuration. -/
def configChanges (ctx : SharedContext) : List SysOp → Nat
  | [] => 0
  | SysOp.setCurrentCaptureConfig w config :: ops =>
    (if ctx.currentCaptureConfig.ne (SharedContext.resolvedConfig w config) then 1 else 0) +
      configChanges (SharedContext.setCurrentCaptureConfig w ctx config) ops
  | SysOp.grab _ _ :: ops => configChanges ctx ops

/-- The number of calls of a coordinator run that changed the stored configuration. -/
def Op.configChanges (s : SharedContext) : List Op → Nat
  | [] => 0
  | op :: ops =>
    (if (Op.apply s op).currentCaptureConfig = s.currentCaptureConfig then 0 else 1) +
      Op.configChanges (Op.apply s op) ops

/-! ## The capture loop (`SystemManager::captureThreadWorker`) -/

/-- The local `targetFps`: `(config.captureFps > 0) ? config.captureFps : 30`. -/
def targetFps (config : CaptureConfig) : Int :=
  if config.captureFps > 0 then config.captureFps else 30

/-- The local `targetIntervalMs`: `1000 / targetFps`, the truncating division of `int`. -/
def targetIntervalMs (config : CaptureConfig) : Int :=
  Int.tdiv 1000 (targetFps config)

/-- The local `sleepTime`: `targetIntervalMs - workTime`. -/
def sleepTime (config : CaptureConfig) (workTime : Int) : Int :=
  targetIntervalMs config - workTime

/-- The argument of the `sleep_for` call at the end of an iteration, `none` when the call is
skipped (`if (sleepTime > 0)`). -/
def sleepFor (config : CaptureConfig) (workTime : Int) : Option Int :=
  if sleepTime config workTime > 0 then some (sleepTime config workTime) else none

/-- The milliseconds an iteration sleeps: the argument of `sleep_for`, or 0 without a call. -/
def sleptMs (config : CaptureConfig) (workTime : Int) : Int :=
  match sleepFor config workTime with
  | some t => t
  | none => 0

/-- What the loop body does with the coordinator after a grab: the coordinator afterwards, the
counter `frameID` afterwards and the frames handed to `setCurrentFrame`, in call order. -/
structure PublishOutcome where
  ctx : SharedContext
  frameID : Int
  passed : List FrameData
  deriving DecidableEq, Repr

/-- The value of a 64-bit two's complement `long long` that an integer result wraps to. -/
def wrapInt64 (x : Int) : Int :=
  (x + 2 ^ 63) % 2 ^ 64 - 2 ^ 63

/-- The `if (matPtr && !matPtr->empty())` block of the loop body, for the pointer `matPtr`
returned by `grabber.grab()`, the measured duration and the wall-clock time stamp. The counter
is a `long long`: `++frameID` is `wrapInt64 (frameID + 1)`, the successor below `2 ^ 63 - 1`
and `-2 ^ 63` at `2 ^ 63 - 1`. -/
def publishCapture (ctx : SharedContext) (frameID : Int) (matPtr : Option Mat)
    (durationMs timestamp : Double) : PublishOutcome :=
  match matPtr with
  | none => { ctx := ctx, frameID := frameID, passed := [] }
  | some m =>
    if m.empty then { ctx := ctx, frameID := frameID, passed := [] }
    else
      { ctx := ((((ctx.setCurrentFrame
            { image := some m, sequenceID := wrapInt64 (frameID + 1), timestamp := timestamp
              captureDurationMs := durationMs }).1.setCaptureTime durationMs).setCurrentFrame
            (ctx.setCurrentFrame
              { image := some m, sequenceID := wrapInt64 (frameID + 1), timestamp := timestamp
                captureDurationMs := durationMs }).2).1)
        frameID := wrapInt64 (frameID + 1)
        passed :=
          [{ image := some m, sequenceID := wrapInt64 (frameID + 1), timestamp := timestamp
             captureDurationMs := durationMs },
           (ctx.setCurrentFrame
              { image := some m, sequenceID := wrapInt64 (frameID + 1), timestamp := timestamp
                captureDurationMs := durationMs }).2] }

/-- One event seen by the coordinator while the capture loop runs: an iteration of the loop
(with what `grab()` returned and the two clock readings) or a call by another thread. -/
inductive WorkerOp where
  | tick (matPtr : Option Mat) (durationMs timestamp : Double)
  | other (op : Op)

/-- The coordinator and the counter `frameID` after a sequence of events. -/
def captureRun (ctx : SharedContext) (frameID : Int) : List WorkerOp → SharedContext × Int
  | [] => (ctx, frameID)
  | WorkerOp.tick matPtr durationMs timestamp :: ops =>
    captureRun (publishCapture ctx frameID matPtr durationMs timestamp).ctx
      (publishCapture ctx frameID matPtr durationMs timestamp).frameID ops
  | WorkerOp.other op :: ops => captureRun (Op.apply ctx op) frameID ops

/-- The frames handed to `setCurrentFrame` by the loop during a sequence of events. -/
def capturePassed (ctx : SharedContext) (frameID : Int) : List WorkerOp → List FrameData
  | [] => []
  | WorkerOp.tick matPtr durationMs timestamp :: ops =>
    (publishCapture ctx frameID matPtr durationMs timestamp).passed ++
      capturePassed (publishCapture ctx frameID matPtr durationMs timestamp).ctx
        (publishCapture ctx frameID matPtr durationMs timestamp).frameID ops
  | WorkerOp.other op :: ops => capturePassed (Op.apply ctx op) frameID ops

/-- The images of the iterations that published (non-null, non-empty `matPtr`), in order. -/
def capturedImages : List WorkerOp → List Mat
  | [] => []
  | WorkerOp.tick (some m) _ _ :: ops =>
    if m.empty then capturedImages ops else m :: capturedImages ops
  | WorkerOp.tick none _ _ :: ops => capturedImages ops
  | WorkerOp.other _ :: ops => capturedImages ops

/-- No event of the sequence is a `setCurrentFrame` call by another thread. -/
def soleProducer : List WorkerOp → Prop
  | [] => True
  | WorkerOp.tick _ _ _ :: ops => soleProducer ops
  | WorkerOp.other op :: ops => (∀ f, op ≠ Op.setCurrentFrame f) ∧ soleProducer ops

/-! ## The inference loop (`SystemManager::depthInferenceThreadWorker`) -/

/-- The `struct DepthResult` of `DepthInference.h`. -/
structure DepthResult where
  depthMap : Mat := {}
  visualDepth : Mat := {}
  intrinsics : Mat := {}
  extrinsics : Mat := {}
  inferTimeMs : Double := 0
  isValid : Bool := false
  deriving DecidableEq, Repr

/-- What one iteration leaves behind: the coordinator, the local `lastProcessedID` and the
images handed to `engine->predict`, in call order. -/
structure InferenceOutcome where
  ctx : SharedContext
  lastProcessedID : Int
  predicted : List Mat
  deriving DecidableEq, Repr

/-- The loop body after `waitForNewFrame` has returned `frame`, with `engine->predict` taken as
a given function. The `none` branch is never taken: a non-empty frame has an image. -/
def processFrame (predict : Mat → DepthResult) (ctx : SharedContext) (lastProcessedID : Int)
    (frame : FrameData) : InferenceOutcome :=
  if frame.empty then { ctx := ctx, lastProcessedID := lastProcessedID, predicted := [] }
  else
    match frame.image with
    | none => { ctx := ctx, lastProcessedID := lastProcessedID, predicted := [] }
    | some img =>
      { ctx := ((ctx.setInferenceTime (predict img).inferTimeMs).setCurrentDepthFrame
          { image := some (predict img).visualDepth
            rawDepth := some (predict img).depthMap
            intrinsics := (predict img).intrinsics
            extrinsics := (predict img).extrinsics
            sequenceID := frame.sequenceID
            captureDurationMs := (predict img).inferTimeMs }).1
        lastProcessedID := frame.sequenceID
        predicted := [img] }

/-- One iteration of the `while (isRunning)` loop in a sequential run: `none` while the call of
`waitForNewFrame` stays blocked. -/
def inferenceIteration (predict : Mat → DepthResult) (ctx : SharedContext)
    (lastProcessedID : Int) : Option InferenceOutcome :=
  if !ctx.getIsInferencing then
    some { ctx := ctx, lastProcessedID := lastProcessedID, predicted := [] }
  else
    match ctx.waitForNewFrame lastProcessedID with
    | none => none
    | some frame => some (processFrame predict ctx lastProcessedID frame)

/-! ## Base64 (`WebSocketServer.cpp`)

The accumulator `val` and the bit count `valb` are `int`s. Every arithmetic result passes
through a function `norm`: the identity for unbounded integers, `wrapInt32` for the 32-bit
two's complement `int`. On these, `x << 8` is `norm (x * 2 ^ 8)`, `x >> k` is `x / 2 ^ k` (the
arithmetic shift) and `x & 0x3F` is `x % 64`.
-/

/-- The string `codes` of `base64_encode`. -/
def codes : String :=
  "ABCDEFGHIJKLMNOPQRSTUVWXYZabcdefghijklmnopqrstuvwxyz0123456789+/"

/-- The character `codes[i]`. -/
def codeAt (i : Int) : Char :=
  codes.toList.getD i.toNat (Char.ofNat 0)

/-- The value of a 32-bit two's complement `int` that an integer result wraps to. -/
def wrapInt32 (x : Int) : Int :=
  (x + 2 ^ 31) % 2 ^ 32 - 2 ^ 31

/-- The local variables of `base64_encode`. -/
structure EncoderState where
  val : Int := 0
  valb : Int := -6
  out : List Char := []
  deriving DecidableEq, Repr

/-- The inner loop `while (valb >= 0)`, run for at most `fuel` rounds; the result is `valb`
and `out` at the end. -/
def drain (norm : Int → Int) : Nat → Int → Int → List Char → Int × List Char
  | 0, _, valb, out => (valb, out)
  | fuel + 1, val, valb, out =>
    if valb ≥ 0 then
      drain norm fuel val (norm (valb - 6)) (out ++ [codeAt (val / 2 ^ valb.toNat % 64)])
    else (valb, out)

/-- The body of `for (uchar c : data)`. The inner loop gets `valb / 6 + 1` rounds, the number
it needs from a non-negative `valb`. -/
def encodeByte (norm : Int → Int) (st : EncoderState) (c : Fin 256) : EncoderState :=
  { val := norm (norm (st.val * 2 ^ 8) + c.val)
    valb := (drain norm (norm (st.valb + 8) / 6 + 1).toNat
      (norm (norm (st.val * 2 ^ 8) + c.val)) (norm (st.valb + 8)) st.out).1
    out := (drain norm (norm (st.valb + 8) / 6 + 1).toNat
      (norm (norm (st.val * 2 ^ 8) + c.val)) (norm (st.valb + 8)) st.out).2 }

/-- The statement `if (valb > -6) out.push_back(...)` after the `for` loop. -/
def encodeTail (norm : Int → Int) (st : EncoderState) : List Char :=
  if st.valb > -6 then
    st.out ++ [codeAt (norm (st.val * 2 ^ 8) / 2 ^ (norm (st.valb + 8)).toNat % 64)]
  else st.out

/-- The loop `while (out.size() % 4) out.push_back('=')`, run for at most `fuel` rounds. -/
def padLoop : Nat → List Char → List Char
  | 0, out => out
  | fuel + 1, out => if out.length % 4 ≠ 0 then padLoop fuel (out ++ ['=']) else out

/-- The function `base64_encode` for a given reading `norm` of `int` arithmetic; the padding
loop gets the three rounds it can need. -/
def base64_encode_with (norm : Int → Int) (data : List (Fin 256)) : List Char :=
  padLoop 3 (encodeTail norm (data.foldl (encodeByte norm) {}))

/-- The function `base64_encode` with `val` an unbounded integer. -/
def base64_encode (data : List (Fin 256)) : List Char :=
  base64_encode_with id data

/-- The function `base64_encode` with `int` a 32-bit integer wrapping modulo `2 ^ 32`. -/
def base64_encode32 (data : List (Fin 256)) : List Char :=
  base64_encode_with wrapInt32 data

/-- The Base64 alphabet of RFC 4648, table 1: `A`-`Z`, `a`-`z`, `0`-`9`, `+`, `/`. -/
def rfcAlphabet (i : Nat) : Char :=
  if i < 26 then Char.ofNat (65 + i)
  else if i < 52 then Char.ofNat (97 + (i - 26))
  else if i < 62 then Char.ofNat (48 + (i - 52))
  else if i = 62 then '+'
  else '/'

/-- The padded Base64 encoding as RFC 4648 section 4 describes it: each group of three bytes
gives four 6-bit characters; a final single byte gives two characters and `==`; a final pair
of bytes gives three characters and `=`. -/
def base64Rfc : List (Fin 256) → List Char
  | [] => []
  | [a] => [rfcAlphabet (a.val / 4), rfcAlphabet (a.val % 4 * 16), '=', '=']
  | [a, b] =>
    [rfcAlphabet (a.val / 4), rfcAlphabet (a.val % 4 * 16 + b.val / 16),
      rfcAlphabet (b.val % 16 * 4), '=']
  | a :: b :: c :: rest =>
    rfcAlphabet (a.val / 4) :: rfcAlphabet (a.val % 4 * 16 + b.val / 16) ::
      rfcAlphabet (b.val % 16 * 4 + c.val / 64) :: rfcAlphabet (c.val % 64) :: base64Rfc rest

/-- A reading of `int` arithmetic that agrees with the integers modulo `2 ^ 32` and on the
values of a 32-bit `int`. -/
structure NormOK (norm : Int → Int) : Prop where
  congruent : ∀ x, ∃ m : Int, norm x = x + m * 4294967296
  small : ∀ x, -2147483648 ≤ x → x < 2147483648 → norm x = x


/-! ## Sample inputs -/

/-- A Win32 environment with no code-page conversion in which every title resolves to the
window handle `h`. -/
def Win32.allResolveTo (h : HWND) : Win32 :=
  { MultiByteToWideChar := fun _ _ => []
    WideCharToMultiByte := fun _ _ => []
    FindWindowA := fun _ => h }

/-- A one-pixel image. -/
def sampleMat : Mat :=
  { rows := 1, cols := 1, data := [255] }

/-- A non-empty frame with the given sequence number. -/
def sampleFrame (sequenceID : Int) : FrameData :=
  { image := some sampleMat, sequenceID := sequenceID }

/-- A coordinator holding `sampleFrame 5`, everything else as initialised. -/
def sampleContext : SharedContext :=
  { currentFrame := sampleFrame 5 }

/-- A coordinator whose version counter holds the largest `uint64_t`. -/
def sampleContextLastVersion : SharedContext :=
  { configVersion := 18446744073709551615 }

/-- The configuration of scenario 2: method GDI, window name `X`, 30 frames per second, with
the handle `h` as the caller filled it in. -/
def sampleConfigX (h : HWND) : CaptureConfig :=
  { Method := CaptureMethod.GDI, targetWindowName := "X", targetHwnd := h, captureFps := 30 }

/-- A coordinator with mapping off and inferencing on that holds `sampleFrame 5`. -/
def sampleContextInferring : SharedContext :=
  { isInferencing := true, currentFrame := sampleFrame 5 }

/-- A coordinator with both flags on and no frame published yet. -/
def sampleContextWaiting : SharedContext :=
  { isMapping := true, isInferencing := true }

/-- A coordinator with mapping on whose stored frame is numbered 10 and carries no image. -/
def sampleContextEmptyAhead : SharedContext :=
  { isMapping := true, currentFrame := { sequenceID := 10 } }

/-- A frame whose image handle is set and points at a `cv::Mat` without data. -/
def sampleFrameHollow : FrameData :=
  { image := some {}, sequenceID := 3 }

/-- A platform on which every call of the `WinGCCaptureStrategy` constructor succeeds. -/
def sampleDirect3D : Direct3D :=
  { init_apartment := 0
    D3D11CreateDevice := (0, 11, 12)
    QueryInterface := fun _ => (0, 13)
    CreateDirect3D11DeviceFromDXGIDevice := fun _ => (0, 14)
    asIDirect3DDevice := fun _ => (0, 15) }

/-- Backends whose `capture` always succeeds with the one-pixel image and keeps its state. -/
def sampleBackends : Backends :=
  { captureGDI := fun st _ => (true, sampleMat, st)
    captureWinGC := fun st _ => (true, sampleMat, st) }

/-- An inference function that returns the one-pixel image as visualisation. -/
def samplePredict : Mat → DepthResult :=
  fun _ => { visualDepth := sampleMat, inferTimeMs := 9 }

/-- A coordinator with inferencing on that holds `sampleFrame 5`, and mapping on. -/
def sampleContextBusy : SharedContext :=
  { isMapping := true, isInferencing := true, currentFrame := sampleFrame 5 }

/-- A run of the capture loop: a capture, a flag change by another thread, a failed grab and
a second capture. -/
def sampleWorkerOps : List WorkerOp :=
  [WorkerOp.tick (some sampleMat) 0 0, WorkerOp.other (Op.setIsMapping true),
    WorkerOp.tick none 0 0, WorkerOp.tick (some sampleMat) 1 1]

/-- A coordinator run: the default configuration is set while a window with handle 7 carries
its title, mapping is switched on, and the same configuration is set again. -/
def sampleOps : List Op :=
  [Op.setCurrentCaptureConfig (Win32.allResolveTo 7) {}, Op.setIsMapping true,
    Op.setCurrentCaptureConfig (Win32.allResolveTo 7) {}]

/-- Three configurations that differ in the frame rate only: 30, 31 and 32 frames per second,
chosen by `i` modulo 3; `sampleStormConfig 0` is the default configuration. -/
def sampleStormConfig (i : Nat) : CaptureConfig :=
  { captureFps := 30 + ((i % 3 : Nat) : Int) }

/-- A run of `n` configuration calls, the `i`-th one (from 1) with `sampleStormConfig i`, while
no window carries the title: every call changes the stored configuration. -/
def stormOps (n : Nat) : List SysOp :=
  (List.range n).map
    (fun i => SysOp.setCurrentCaptureConfig (Win32.allResolveTo 0) (sampleStormConfig (i + 1)))

/-- A sequential run: a grab, a configuration call for the window `X` with handle 7, and two
more grabs. -/
def sampleSysOps : List SysOp :=
  [SysOp.grab sampleDirect3D sampleBackends,
    SysOp.setCurrentCaptureConfig (Win32.allResolveTo 7) (sampleConfigX 0),
    SysOp.grab sampleDirect3D sampleBackends, SysOp.grab sampleDirect3D sampleBackends]

/-- The one-pixel image whose pixel value is `i`. -/
def imageNo (i : Nat) : Mat :=
  { rows := 1, cols := 1, data := [i] }

/-- A run of `n` iterations of the capture loop, the `i`-th one (from 1) capturing
`imageNo i`. -/
def tickRun (n : Nat) : List WorkerOp :=
  (List.range n).map (fun i => WorkerOp.tick (some (imageNo (i + 1))) 0 0)

/-! ## Theorems -/

/-- One call never lowers the sequence number of the stored raw frame. -/
theorem Op.apply_sequenceID_le (s : SharedContext) (op : Op) :
    s.currentFrame.sequenceID ≤ (Op.apply s op).currentFrame.sequenceID := by
  cases op with
  | setCurrentFrame frame =>
    by_cases h : frame.sequenceID > s.currentFrame.sequenceID
    · simp [Op.apply, SharedContext.setCurrentFrame, h]
      exact le_of_lt h
    · simp [Op.apply, SharedContext.setCurrentFrame, h]
  | setCurrentCaptureConfig w config =>
    simp only [Op.apply, SharedContext.setCurrentCaptureConfig]
    split <;> exact le_refl _
  | setCurrentDepthFrame frame => exact le_refl _
  | setIsMapping state => exact le_refl _
  | setIsInferencing state => exact le_refl _
  | setCaptureTime ms => exact le_refl _
  | setInferenceTime ms => exact le_refl _

/-- The end state of a run is the last state visited. -/
theorem run_eq_getLast (s : SharedContext) (ops : List Op) :
    run s ops = (s :: statesAfter s ops).getLast (List.cons_ne_nil _ _) := by
  induction ops generalizing s with
  | nil => rfl
  | cons op ops ih =>
    simp only [run, List.foldl_cons, statesAfter]
    rw [List.getLast_cons (List.cons_ne_nil _ _)]
    exact ih (Op.apply s op)

/-- Submitting one frame makes the stored sequence number the larger of the two. -/
theorem setCurrentFrame_sequenceID (s : SharedContext) (f : FrameData) :
    (s.setCurrentFrame f).1.currentFrame.sequenceID =
      max s.currentFrame.sequenceID f.sequenceID := by
  by_cases h : f.sequenceID > s.currentFrame.sequenceID
  · simp [SharedContext.setCurrentFrame, h, max_eq_right (le_of_lt h)]
  · simp [SharedContext.setCurrentFrame, h, max_eq_left (not_lt.mp h)]

/-- Submitting a list of frames makes the stored sequence number the largest seen. -/
theorem publishAll_sequenceID (s : SharedContext) (frames : List FrameData) :
    (publishAll s frames).currentFrame.sequenceID =
      (frames.map (fun f => f.sequenceID)).foldr max s.currentFrame.sequenceID := by
  induction frames generalizing s with
  | nil => rfl
  | cons f fs ih =>
    simp only [publishAll, List.foldl_cons, List.map_cons, List.foldr_cons]
    have h := ih (s.setCurrentFrame f).1
    simp only [publishAll] at h
    rw [h, setCurrentFrame_sequenceID]
    generalize (fs.map (fun f => f.sequenceID)) = l
    induction l with
    | nil => simp [max_comm]
    | cons a l ihl =>
      simp only [List.foldr_cons]
      rw [ihl, max_left_comm]

/-- The largest sequence number of a list does not depend on the order of the list. -/
theorem maxSequenceID_perm {frames frames2 : List FrameData} (h : frames.Perm frames2) :
    maxSequenceID frames = maxSequenceID frames2 := by
  induction h with
  | nil => rfl
  | cons x _ ih =>
    simp only [maxSequenceID, List.map_cons, List.foldr_cons] at ih ⊢
    rw [ih]
  | swap x y l =>
    simp only [maxSequenceID, List.map_cons, List.foldr_cons]
    exact max_left_comm _ _ _
  | trans _ _ ih1 ih2 => exact ih1.trans ih2

/-- The source's `!=` on configurations is inequality of the four fields. -/
theorem CaptureConfig.ne_eq_true_iff (a b : CaptureConfig) : a.ne b = true ↔ a ≠ b := by
  cases a
  cases b
  simp only [CaptureConfig.ne, Bool.or_eq_true, bne_iff_ne, ne_eq, CaptureConfig.mk.injEq]
  tauto

/-- The source's `!=` on configurations is false exactly on equal configurations. -/
theorem CaptureConfig.ne_eq_false_iff (a b : CaptureConfig) : a.ne b = false ↔ a = b := by
  rw [← Bool.not_eq_true, CaptureConfig.ne_eq_true_iff, not_not]

/-- The source's `==` on configurations is equality of the four fields. -/
theorem CaptureConfig.eq_eq_true_iff (a b : CaptureConfig) : a.eq b = true ↔ a = b := by
  simp only [CaptureConfig.eq, Bool.not_eq_true', CaptureConfig.ne_eq_false_iff]

/-- After `setCurrentCaptureConfig` the stored configuration is the resolved argument. -/
theorem setCurrentCaptureConfig_stored (w : Win32) (s : SharedContext) (c : CaptureConfig) :
    (SharedContext.setCurrentCaptureConfig w s c).currentCaptureConfig
      = SharedContext.resolvedConfig w c := by
  unfold SharedContext.setCurrentCaptureConfig
  by_cases h : s.currentCaptureConfig.ne (SharedContext.resolvedConfig w c) = true
  · simp [h]
  · rw [Bool.not_eq_true, CaptureConfig.ne_eq_false_iff] at h
    simp [h, (CaptureConfig.ne_eq_false_iff _ _).mpr rfl]

/-- A call of `setCurrentCaptureConfig` whose resolved argument is already stored changes
nothing. -/
theorem setCurrentCaptureConfig_of_eq (w : Win32) (s : SharedContext) (c : CaptureConfig)
    (h : s.currentCaptureConfig = SharedContext.resolvedConfig w c) :
    SharedContext.setCurrentCaptureConfig w s c = s := by
  unfold SharedContext.setCurrentCaptureConfig
  simp [(CaptureConfig.ne_eq_false_iff _ _).mpr h]

/-- A call of `setCurrentCaptureConfig` whose resolved argument differs from the stored
configuration stores it and steps the `uint64_t` counter. -/
theorem setCurrentCaptureConfig_of_ne (w : Win32) (s : SharedContext) (c : CaptureConfig)
    (h : s.currentCaptureConfig ≠ SharedContext.resolvedConfig w c) :
    SharedContext.setCurrentCaptureConfig w s c =
      { s with currentCaptureConfig := SharedContext.resolvedConfig w c
               configVersion := (s.configVersion + 1) % 2 ^ 64 } := by
  unfold SharedContext.setCurrentCaptureConfig
  simp [(CaptureConfig.ne_eq_true_iff _ _).mpr h]

/-- The embedding of `waitForNewFrame` returns exactly when the wait predicate holds. -/
theorem waitForNewFrame_isSome (s : SharedContext) (lastID : Int) :
    (s.waitForNewFrame lastID).isSome = s.waitPredicate lastID := by
  unfold SharedContext.waitForNewFrame
  cases s.waitPredicate lastID <;> cases s.isInferencing <;> rfl

/-- The wait predicate spelled out. -/
theorem waitPredicate_eq_true_iff (s : SharedContext) (lastID : Int) :
    s.waitPredicate lastID = true ↔
      (s.currentFrame.empty = false ∧ s.currentFrame.sequenceID > lastID) ∨
        s.isMapping = false := by
  simp [SharedContext.waitPredicate]

/-- The inferencing flag is not read by the wait predicate. -/
theorem waitPredicate_setIsInferencing (s : SharedContext) (state : Bool) (lastID : Int) :
    (s.setIsInferencing state).waitPredicate lastID = s.waitPredicate lastID := rfl

/-- A call of `setConfig` that returns leaves a backend installed if there was one. -/
theorem setConfig_strategy_ne_none (d : Direct3D) (g g1 : ScreenGrabber) (c : CaptureConfig)
    (hs : g.strategy ≠ none) (h : g.setConfig d c = Except.ok g1) : g1.strategy ≠ none := by
  unfold ScreenGrabber.setConfig at h
  split at h
  · cases h
    exact hs
  · split at h
    · cases h
      simp
    · cases h
      simp
    · split at h
      · cases h
      · cases h
        simp

/-- A call of `setConfig` that returns leaves the given configuration active. -/
theorem setConfig_activeConfig (d : Direct3D) (g g1 : ScreenGrabber) (c : CaptureConfig)
    (h : g.setConfig d c = Except.ok g1) : g1.activeConfig = c := by
  unfold ScreenGrabber.setConfig at h
  split at h
  · rename_i he
    cases h
    exact (CaptureConfig.eq_eq_true_iff _ _).mp he
  · split at h
    · cases h
      rfl
    · cases h
      rfl
    · split at h
      · cases h
      · cases h
        rfl

/-- The version check of `grab` never leaves the grabber without a backend. -/
theorem sync_strategy_isSome (d : Direct3D) (ctx : SharedContext) (g g1 : ScreenGrabber)
    (hs : g.strategy ≠ none) (h : g.sync d ctx = Except.ok g1) : g1.strategy ≠ none := by
  unfold ScreenGrabber.sync at h
  split at h
  · split at h
    · cases h
    · rename_i g2 hg2
      cases h
      exact setConfig_strategy_ne_none d g g2 _ hs hg2
  · cases h
    exact hs

/-- With a backend installed, `grab` is the version check followed by the capture part. -/
theorem grab_of_sync (d : Direct3D) (b : Backends) (ctx : SharedContext)
    (g g1 : ScreenGrabber) (hs : g.strategy ≠ none) (h : g.sync d ctx = Except.ok g1) :
    g.grab d b ctx = Except.ok (g1.grabActive b) := by
  unfold ScreenGrabber.grab
  cases hst : g.strategy with
  | none => exact absurd hst hs
  | some st => simp [h]

/-- A call other than `setCurrentFrame` leaves the stored raw frame alone. -/
theorem Op.apply_currentFrame (s : SharedContext) (op : Op)
    (h : ∀ f, op ≠ Op.setCurrentFrame f) : (Op.apply s op).currentFrame = s.currentFrame := by
  cases op with
  | setCurrentFrame frame => exact absurd rfl (h frame)
  | setCurrentCaptureConfig w config =>
    simp only [Op.apply, SharedContext.setCurrentCaptureConfig]
    split <;> rfl
  | setCurrentDepthFrame frame => rfl
  | setIsMapping state => rfl
  | setIsInferencing state => rfl
  | setCaptureTime ms => rfl
  | setInferenceTime ms => rfl

/-- A capture that does not publish leaves everything as it was. -/
theorem publishCapture_skip (ctx : SharedContext) (frameID : Int) (matPtr : Option Mat)
    (d t : Double) (h : ∀ m, matPtr = some m → m.empty = true) :
    publishCapture ctx frameID matPtr d t = { ctx := ctx, frameID := frameID, passed := [] } := by
  unfold publishCapture
  cases matPtr with
  | none => rfl
  | some m => simp [h m rfl]

/-- Inside the range of a `long long` the wrap is the identity. -/
theorem wrapInt64_eq (x : Int) (h1 : -2 ^ 63 ≤ x) (h2 : x < 2 ^ 63) : wrapInt64 x = x := by
  unfold wrapInt64
  omega

/-- A successful capture while the stored frame is not ahead of the counter and the counter is
below `2 ^ 63 - 1`: the first `setCurrentFrame` stores the new frame, the second one, with the
moved-from object, is discarded. -/
theorem publishCapture_success (ctx : SharedContext) (frameID : Int) (m : Mat) (d t : Double)
    (hm : m.empty = false) (hinv : ctx.currentFrame.sequenceID ≤ frameID)
    (h0 : 0 ≤ frameID) (hb : frameID + 1 < 2 ^ 63) :
    publishCapture ctx frameID (some m) d t =
      { ctx := { ctx with
                 currentFrame := { image := some m, sequenceID := frameID + 1, timestamp := t
                                   captureDurationMs := d }
                 lastCaptureTimeMs := d }
        frameID := frameID + 1
        passed := [{ image := some m, sequenceID := frameID + 1, timestamp := t
                     captureDurationMs := d },
                   { sequenceID := frameID + 1, timestamp := t, captureDurationMs := d }] } := by
  have h1 : frameID + 1 > ctx.currentFrame.sequenceID := by omega
  have hw : wrapInt64 (frameID + 1) = frameID + 1 := wrapInt64_eq _ (by omega) hb
  simp [publishCapture, hm, hw, SharedContext.setCurrentFrame, h1,
    SharedContext.setCaptureTime, FrameData.movedFrom]

/-- A successful capture when the counter and the stored frame are at `2 ^ 63 - 1`: the counter
wraps to `-2 ^ 63`, and the frame, numbered `-2 ^ 63`, is discarded by both `setCurrentFrame`
calls. -/
theorem publishCapture_overflow (ctx : SharedContext) (m : Mat) (d t : Double)
    (hm : m.empty = false) (hs : ctx.currentFrame.sequenceID = 2 ^ 63 - 1) :
    (publishCapture ctx (2 ^ 63 - 1) (some m) d t).ctx = ctx.setCaptureTime d ∧
      (publishCapture ctx (2 ^ 63 - 1) (some m) d t).frameID = -2 ^ 63 := by
  have hw : wrapInt64 9223372036854775808 = -9223372036854775808 := by
    unfold wrapInt64
    norm_num
  have h1 : ¬ (ctx.currentFrame.sequenceID < -9223372036854775808) := by
    rw [hs]
    norm_num
  simp [publishCapture, hm, hw, SharedContext.setCurrentFrame, h1,
    SharedContext.setCaptureTime]

/-- Every image counted by `capturedImages` is non-empty. -/
theorem capturedImages_nonempty (ops : List WorkerOp) :
    ∀ m ∈ capturedImages ops, m.empty = false := by
  induction ops with
  | nil => simp [capturedImages]
  | cons op ops ih =>
    cases op with
    | other o => simpa [capturedImages] using ih
    | tick matPtr d t =>
      cases matPtr with
      | none => simpa [capturedImages] using ih
      | some x =>
        by_cases hx : x.empty = true
        · simpa [capturedImages, hx] using ih
        · simp only [capturedImages, hx, Bool.false_eq_true, if_false, List.mem_cons]
          intro m hmem
          rcases hmem with rfl | hmem
          · simpa using hx
          · exact ih m hmem

/-- The capture loop as sole producer, started with the stored frame not ahead of the counter
and run while the counter stays below `2 ^ 63`: the counter advances by the number of published
captures, and the stored frame is the one it was while nothing was published, afterwards the
last published image under the counter's number. -/
theorem captureRun_spec (ops : List WorkerOp) :
    ∀ (ctx : SharedContext) (k : Int), ctx.currentFrame.sequenceID ≤ k → 0 ≤ k →
      k + (capturedImages ops).length < 2 ^ 63 → soleProducer ops →
      (captureRun ctx k ops).2 = k + (capturedImages ops).length ∧
      (capturedImages ops = [] → (captureRun ctx k ops).1.currentFrame = ctx.currentFrame) ∧
      (∀ m, (capturedImages ops).getLast? = some m →
        (captureRun ctx k ops).1.currentFrame.image = some m ∧
        (captureRun ctx k ops).1.currentFrame.sequenceID
          = k + (capturedImages ops).length) := by
  induction ops with
  | nil =>
    intro ctx k _ _ _ _
    simp [captureRun, capturedImages]
  | cons op ops ih =>
    intro ctx k hinv hk hbound hsole
    cases op with
    | other o =>
      simp only [soleProducer] at hsole
      have hcf := Op.apply_currentFrame ctx o hsole.1
      have h := ih (Op.apply ctx o) k (by rw [hcf]; exact hinv) hk
        (by simpa [capturedImages] using hbound) hsole.2
      simp only [captureRun, capturedImages]
      rw [← hcf]
      exact h
    | tick matPtr d t =>
      simp only [soleProducer] at hsole
      by_cases hskip : ∀ m, matPtr = some m → m.empty = true
      · have hp := publishCapture_skip ctx k matPtr d t hskip
        have hc : capturedImages (WorkerOp.tick matPtr d t :: ops) = capturedImages ops := by
          cases matPtr with
          | none => rfl
          | some x => simp [capturedImages, hskip x rfl]
        simp only [captureRun, hp, hc]
        rw [hc] at hbound
        exact ih ctx k hinv hk hbound hsole
      · push_neg at hskip
        obtain ⟨x, rfl, hx⟩ := hskip
        have hx2 : x.empty = false := by simpa using hx
        have hc : capturedImages (WorkerOp.tick (some x) d t :: ops)
            = x :: capturedImages ops := by
          simp [capturedImages, hx2]
        rw [hc] at hbound
        simp only [List.length_cons] at hbound
        push_cast at hbound
        have hp := publishCapture_success ctx k x d t hx2 hinv hk (by omega)
        simp only [captureRun, hp, hc]
        have h := ih { ctx with
                       currentFrame := { image := some x, sequenceID := k + 1, timestamp := t
                                         captureDurationMs := d }
                       lastCaptureTimeMs := d } (k + 1) (le_refl _) (by omega) (by omega) hsole
        obtain ⟨h1, h2, h3⟩ := h
        refine ⟨?_, ?_, ?_⟩
        · rw [h1]
          simp only [List.length_cons]
          push_cast
          ring
        · intro hne
          exact absurd hne (List.cons_ne_nil _ _)
        · intro m hm
          cases hl : capturedImages ops with
          | nil =>
            rw [hl] at hm
            simp only [List.getLast?_singleton, Option.some.injEq] at hm
            rw [h2 hl]
            simp [hm]
          | cons y ys =>
            rw [hl] at hm
            rw [List.getLast?_cons_cons] at hm
            rw [← hl] at hm
            have h4 := h3 m hm
            refine ⟨h4.1, ?_⟩
            rw [h4.2, ← hl]
            simp only [List.length_cons]
            push_cast
            ring

/-- The events before a point of a sole-producer run form a sole-producer run. -/
theorem soleProducer_of_append (pre rest : List WorkerOp) (h : soleProducer (pre ++ rest)) :
    soleProducer pre := by
  induction pre with
  | nil => trivial
  | cons op pre ih =>
    cases op with
    | tick matPtr d t => exact ih h
    | other o => exact ⟨h.1, ih h.2⟩

/-- The captures published by a run in two parts. -/
theorem capturedImages_append (a b : List WorkerOp) :
    capturedImages (a ++ b) = capturedImages a ++ capturedImages b := by
  induction a with
  | nil => rfl
  | cons op a ih =>
    cases op with
    | other o => simpa [capturedImages] using ih
    | tick matPtr d t =>
      cases matPtr with
      | none => simpa [capturedImages] using ih
      | some x =>
        by_cases hx : x.empty = true
        · simpa [capturedImages, hx] using ih
        · simp [capturedImages, hx, ih]

/-- The coordinator and the counter after a run in two parts. -/
theorem captureRun_append (a b : List WorkerOp) :
    ∀ (ctx : SharedContext) (k : Int),
      captureRun ctx k (a ++ b) = captureRun (captureRun ctx k a).1 (captureRun ctx k a).2 b := by
  induction a with
  | nil => intro ctx k; rfl
  | cons op a ih =>
    intro ctx k
    cases op with
    | other o => exact ih _ _
    | tick matPtr d t => exact ih _ _

/-- From a fresh coordinator, while fewer than `2 ^ 63` captures were published, the stored
frame is never ahead of the loop's counter. -/
theorem captureRun_fresh_le (ops : List WorkerOp) (h : soleProducer ops)
    (hb : ((capturedImages ops).length : Int) < 2 ^ 63) :
    (captureRun {} 0 ops).1.currentFrame.sequenceID ≤ (captureRun {} 0 ops).2 := by
  obtain ⟨h1, h2, h3⟩ := captureRun_spec ops {} 0 (by decide) (le_refl _) (by omega) h
  cases hl : (capturedImages ops).getLast? with
  | none =>
    have hnil : capturedImages ops = [] := List.getLast?_eq_none_iff.mp hl
    rw [h2 hnil, h1, hnil]
    decide
  | some m =>
    rw [(h3 m hl).2, h1]

/-- One call that leaves the stored configuration as it was leaves the version as it was. -/
theorem Op.apply_configVersion_of_eq (s : SharedContext) (op : Op)
    (h : (Op.apply s op).currentCaptureConfig = s.currentCaptureConfig) :
    (Op.apply s op).configVersion = s.configVersion := by
  cases op with
  | setCurrentCaptureConfig w config =>
    by_cases he : s.currentCaptureConfig = SharedContext.resolvedConfig w config
    · simp only [Op.apply, setCurrentCaptureConfig_of_eq w s config he]
    · simp only [Op.apply, setCurrentCaptureConfig_stored] at h
      exact absurd h.symm he
  | setCurrentFrame frame =>
    simp only [Op.apply, SharedContext.setCurrentFrame]
    split <;> rfl
  | setCurrentDepthFrame frame => rfl
  | setIsMapping state => rfl
  | setIsInferencing state => rfl
  | setCaptureTime ms => rfl
  | setInferenceTime ms => rfl

/-- One call that changes the stored configuration steps the `uint64_t` version. -/
theorem Op.apply_configVersion_of_ne (s : SharedContext) (op : Op)
    (h : (Op.apply s op).currentCaptureConfig ≠ s.currentCaptureConfig) :
    (Op.apply s op).configVersion = (s.configVersion + 1) % 2 ^ 64 := by
  cases op with
  | setCurrentCaptureConfig w config =>
    by_cases he : s.currentCaptureConfig = SharedContext.resolvedConfig w config
    · simp only [Op.apply, setCurrentCaptureConfig_of_eq w s config he] at h
      exact absurd rfl h
    · simp only [Op.apply, setCurrentCaptureConfig_of_ne w s config he]
  | setCurrentFrame frame =>
    simp only [Op.apply, SharedContext.setCurrentFrame] at h
    split at h <;> exact absurd rfl h
  | setCurrentDepthFrame frame => exact absurd rfl h
  | setIsMapping state => exact absurd rfl h
  | setIsInferencing state => exact absurd rfl h
  | setCaptureTime ms => exact absurd rfl h
  | setInferenceTime ms => exact absurd rfl h

/-- While the counter cannot wrap during a run, every later state has a version at least the
start's, and the start's configuration if the version is the start's. -/
theorem statesAfter_version (ops : List Op) :
    ∀ s : SharedContext, s.configVersion + Op.configChanges s ops < 2 ^ 64 →
      ∀ t ∈ statesAfter s ops, s.configVersion ≤ t.configVersion ∧
        (s.configVersion = t.configVersion →
          s.currentCaptureConfig = t.currentCaptureConfig) := by
  induction ops with
  | nil =>
    intro s _ t ht
    simp [statesAfter] at ht
  | cons op ops ih =>
    intro s hb t ht
    simp only [Op.configChanges] at hb
    simp only [statesAfter, List.mem_cons] at ht
    by_cases hc : (Op.apply s op).currentCaptureConfig = s.currentCaptureConfig
    · have hv := Op.apply_configVersion_of_eq s op hc
      simp only [hc, if_true, Nat.zero_add] at hb
      rcases ht with rfl | ht
      · exact ⟨by omega, fun _ => hc.symm⟩
      · have h1 := ih (Op.apply s op) (by omega) t ht
        exact ⟨by omega, fun he => hc.symm.trans (h1.2 (by omega))⟩
    · have hv := Op.apply_configVersion_of_ne s op hc
      simp only [hc, if_false] at hb
      have hv2 : (Op.apply s op).configVersion = s.configVersion + 1 := by
        rw [hv]
        exact Nat.mod_eq_of_lt (by omega)
      rcases ht with rfl | ht
      · exact ⟨by omega, fun he => by omega⟩
      · have h1 := ih (Op.apply s op) (by omega) t ht
        exact ⟨by omega, fun he => by omega⟩

/-- The capture part of `grab` changes nothing of the grabber but the backend's state. -/
theorem grabActive_grabber (b : Backends) (g : ScreenGrabber) :
    (g.grabActive b).grabber.activeConfig = g.activeConfig ∧
      (g.grabActive b).grabber.localConfigVersion = g.localConfigVersion ∧
      (g.strategy ≠ none → (g.grabActive b).grabber.strategy ≠ none) := by
  unfold ScreenGrabber.grabActive
  split
  · exact ⟨rfl, rfl, id⟩
  · split
    · exact ⟨rfl, rfl, id⟩
    · split
      · split
        · exact ⟨rfl, rfl, fun _ => by simp⟩
        · exact ⟨rfl, rfl, fun _ => by simp⟩
      · exact ⟨rfl, rfl, fun _ => by simp⟩

/-- The version check of `grab`: on differing versions the coordinator's configuration and
version are taken over, on equal versions nothing happens. -/
theorem sync_spec (d : Direct3D) (ctx : SharedContext) (g g1 : ScreenGrabber)
    (h : g.sync d ctx = Except.ok g1) :
    (ctx.configVersion ≠ g.localConfigVersion →
        g1.localConfigVersion = ctx.configVersion ∧
          g1.activeConfig = ctx.currentCaptureConfig) ∧
      (ctx.configVersion = g.localConfigVersion → g1 = g) := by
  unfold ScreenGrabber.sync at h
  simp only [SharedContext.getCaptureConfigVersion, SharedContext.getCurrentCaptureConfig] at h
  by_cases hv : ctx.configVersion = g.localConfigVersion
  · simp only [hv, bne_self_eq_false, Bool.false_eq_true, if_false] at h
    cases h
    exact ⟨fun hne => absurd hv hne, fun _ => rfl⟩
  · have hb : (ctx.configVersion != g.localConfigVersion) = true := by simpa using hv
    simp only [hb, if_true] at h
    refine ⟨fun _ => ?_, fun he => absurd he hv⟩
    cases hs : g.setConfig d ctx.currentCaptureConfig with
    | error e => simp [hs] at h
    | ok g2 =>
      simp only [hs] at h
      cases h
      exact ⟨rfl, setConfig_activeConfig d g g2 _ hs⟩

/-- The invariant of the version protocol: if the coordinator's version is `j` steps ahead of
the cached one, `j` plus the configuration changes still to come stays below `2 ^ 64`, and the
active configuration is the coordinator's whenever `j = 0`, then after every `grab()` of the
run the cached version and the active configuration are the coordinator's. -/
theorem grabPoints_synced (ops : List SysOp) :
    ∀ (sys : System) (j : Nat),
      sys.ctx.configVersion = (sys.grabber.localConfigVersion + j) % 2 ^ 64 →
      sys.grabber.localConfigVersion < 2 ^ 64 →
      (j = 0 → sys.grabber.activeConfig = sys.ctx.currentCaptureConfig) →
      j + configChanges sys.ctx ops < 2 ^ 64 →
      sys.grabber.strategy ≠ none →
      ∀ p ∈ grabPoints sys ops,
        p.grabber.localConfigVersion = p.ctx.configVersion ∧
          p.grabber.activeConfig = p.ctx.currentCaptureConfig := by
  induction ops with
  | nil =>
    intro sys j _ _ _ _ _ p hp
    simp [grabPoints] at hp
  | cons op ops ih =>
    intro sys j hv hl h0 hb hs p hp
    cases op with
    | setCurrentCaptureConfig w config =>
      simp only [grabPoints] at hp
      simp only [configChanges] at hb
      by_cases hc : sys.ctx.currentCaptureConfig = SharedContext.resolvedConfig w config
      · have hn := (CaptureConfig.ne_eq_false_iff _ _).mpr hc
        rw [setCurrentCaptureConfig_of_eq w sys.ctx config hc] at hp hb
        simp only [hn, Bool.false_eq_true, if_false, Nat.zero_add] at hb
        exact ih { sys with ctx := sys.ctx } j hv hl h0 hb hs p hp
      · have hn := (CaptureConfig.ne_eq_true_iff _ _).mpr hc
        have hcv : (SharedContext.setCurrentCaptureConfig w sys.ctx config).configVersion
            = (sys.ctx.configVersion + 1) % 2 ^ 64 := by
          rw [setCurrentCaptureConfig_of_ne w sys.ctx config hc]
        simp only [hn, if_true] at hb
        refine ih { sys with ctx := SharedContext.setCurrentCaptureConfig w sys.ctx config }
          (j + 1) ?_ hl (fun hj => absurd hj (Nat.succ_ne_zero j)) ?_ hs p hp
        · show (SharedContext.setCurrentCaptureConfig w sys.ctx config).configVersion
            = (sys.grabber.localConfigVersion + (j + 1)) % 2 ^ 64
          rw [hcv]
          omega
        · show j + 1 + configChanges (SharedContext.setCurrentCaptureConfig w sys.ctx config)
            ops < 2 ^ 64
          omega
    | grab d b =>
      simp only [grabPoints] at hp
      simp only [configChanges] at hb
      cases hg : sys.grabber.grab d b sys.ctx with
      | error e => simp [hg] at hp
      | ok out =>
        simp only [hg] at hp
        cases hsy : sys.grabber.sync d sys.ctx with
        | error e =>
          unfold ScreenGrabber.grab at hg
          cases hst : sys.grabber.strategy with
          | none => exact absurd hst hs
          | some st => simp [hst, hsy] at hg
        | ok g1 =>
          have hg2 := grab_of_sync d b sys.ctx sys.grabber g1 hs hsy
          rw [hg] at hg2
          cases hg2
          obtain ⟨ha, hlv, hst⟩ := grabActive_grabber b g1
          obtain ⟨hne, heq⟩ := sync_spec d sys.ctx sys.grabber g1 hsy
          have hs1 := sync_strategy_isSome d sys.ctx sys.grabber g1 hs hsy
          have hpoint : g1.localConfigVersion = sys.ctx.configVersion ∧
              g1.activeConfig = sys.ctx.currentCaptureConfig := by
            by_cases hvv : sys.ctx.configVersion = sys.grabber.localConfigVersion
            · have hg1 := heq hvv
              have hj : j = 0 := by omega
              rw [hg1]
              exact ⟨hvv.symm, h0 hj⟩
            · exact hne hvv
          simp only [List.mem_cons] at hp
          rcases hp with rfl | hp
          · exact ⟨by rw [hlv]; exact hpoint.1, by rw [ha]; exact hpoint.2⟩
          · refine ih { sys with grabber := (g1.grabActive b).grabber } 0 ?_ ?_ ?_ ?_
              (hst hs1) p hp
            rotate_left 3
            · show 0 + configChanges sys.ctx ops < 2 ^ 64
              omega
            · show sys.ctx.configVersion
                = ((g1.grabActive b).grabber.localConfigVersion + 0) % 2 ^ 64
              rw [hlv, hpoint.1]
              omega
            · show (g1.grabActive b).grabber.localConfigVersion < 2 ^ 64
              rw [hlv, hpoint.1]
              omega
            · intro _
              show (g1.grabActive b).grabber.activeConfig = sys.ctx.currentCaptureConfig
              rw [ha]
              exact hpoint.2

/-- The coordinator after a run in two parts. -/
theorem ctxAfter_append (a b : List SysOp) :
    ∀ ctx : SharedContext, ctxAfter ctx (a ++ b) = ctxAfter (ctxAfter ctx a) b := by
  induction a with
  | nil => intro ctx; rfl
  | cons op a ih =>
    intro ctx
    cases op with
    | setCurrentCaptureConfig w config => exact ih _
    | grab d bk => exact ih _

/-- While only configuration calls are made, the grab points are those of the rest of the run,
taken from the coordinator state the calls lead to. -/
theorem grabPoints_config_calls (f : Nat → Win32 × CaptureConfig) (rest : List SysOp)
    (l : List Nat) :
    ∀ sys : System,
      grabPoints sys (l.map (fun i => SysOp.setCurrentCaptureConfig (f i).1 (f i).2) ++ rest)
        = grabPoints
            { sys with
              ctx := ctxAfter sys.ctx
                (l.map (fun i => SysOp.setCurrentCaptureConfig (f i).1 (f i).2)) } rest := by
  induction l with
  | nil => intro sys; rfl
  | cons i l ih =>
    intro sys
    simp only [List.map_cons, List.cons_append, grabPoints, ctxAfter]
    exact ih _

/-- After `n` calls of the storm the version is `n` modulo `2 ^ 64` and the stored
configuration is `sampleStormConfig n`. -/
theorem ctxAfter_stormOps (n : Nat) :
    ctxAfter {} (stormOps n)
      = { configVersion := n % 2 ^ 64, currentCaptureConfig := sampleStormConfig n } := by
  induction n with
  | zero => rfl
  | succ n ih =>
    have hs : stormOps (n + 1) = stormOps n ++
        [SysOp.setCurrentCaptureConfig (Win32.allResolveTo 0) (sampleStormConfig (n + 1))] := by
      simp [stormOps, List.range_succ]
    have hr : SharedContext.resolvedConfig (Win32.allResolveTo 0) (sampleStormConfig (n + 1))
        = sampleStormConfig (n + 1) := rfl
    have hne : ({ configVersion := n % 2 ^ 64, currentCaptureConfig := sampleStormConfig n }
        : SharedContext).currentCaptureConfig
          ≠ SharedContext.resolvedConfig (Win32.allResolveTo 0) (sampleStormConfig (n + 1)) := by
      rw [hr]
      intro he
      have hf := congrArg CaptureConfig.captureFps he
      simp only [sampleStormConfig] at hf
      omega
    rw [hs, ctxAfter_append, ih]
    simp only [ctxAfter]
    rw [setCurrentCaptureConfig_of_ne _ _ _ hne, hr]
    simp only [SharedContext.mk.injEq, and_true, true_and]
    omega

/-- The table `codes` holds the RFC 4648 alphabet. -/
theorem codeAt_eq_rfcAlphabet : ∀ i : Fin 64, codeAt (i.val : Int) = rfcAlphabet i.val := by
  decide

/-- Unbounded integer arithmetic is an admissible reading. -/
theorem normOK_id : NormOK id :=
  ⟨fun x => ⟨0, by simp⟩, fun _ _ _ => rfl⟩

/-- Wrapping 32-bit arithmetic is an admissible reading. -/
theorem normOK_wrapInt32 : NormOK wrapInt32 := by
  refine ⟨fun x => ⟨-((x + 2147483648) / 4294967296), ?_⟩, fun x h1 h2 => ?_⟩
  · simp only [wrapInt32]
    norm_num
    omega
  · simp only [wrapInt32]
    norm_num
    omega


/-- A byte read with no bits pending emits one character and leaves two bits pending. -/
theorem encodeByte_m6 (norm : Int → Int) (ok : NormOK norm) (st : EncoderState) (c : Fin 256)
    (h : st.valb = -6) :
    encodeByte norm st c =
      { val := norm (norm (st.val * 2 ^ 8) + c.val)
        valb := -4
        out := st.out ++ [codeAt (norm (norm (st.val * 2 ^ 8) + c.val) / 4 % 64)] } := by
  have h2 : norm 2 = 2 := ok.small _ (by norm_num) (by norm_num)
  have h4 : norm (-4) = -4 := ok.small _ (by norm_num) (by norm_num)
  simp [encodeByte, h, h2, h4, drain]

/-- A byte read with two bits pending emits one character and leaves four bits pending. -/
theorem encodeByte_m4 (norm : Int → Int) (ok : NormOK norm) (st : EncoderState) (c : Fin 256)
    (h : st.valb = -4) :
    encodeByte norm st c =
      { val := norm (norm (st.val * 2 ^ 8) + c.val)
        valb := -2
        out := st.out ++ [codeAt (norm (norm (st.val * 2 ^ 8) + c.val) / 16 % 64)] } := by
  have h2 : norm 4 = 4 := ok.small _ (by norm_num) (by norm_num)
  have h4 : norm (-2) = -2 := ok.small _ (by norm_num) (by norm_num)
  simp [encodeByte, h, h2, h4, drain]

/-- A byte read with four bits pending emits two characters and leaves none pending. -/
theorem encodeByte_m2 (norm : Int → Int) (ok : NormOK norm) (st : EncoderState) (c : Fin 256)
    (h : st.valb = -2) :
    encodeByte norm st c =
      { val := norm (norm (st.val * 2 ^ 8) + c.val)
        valb := -6
        out := st.out ++ [codeAt (norm (norm (st.val * 2 ^ 8) + c.val) / 64 % 64),
          codeAt (norm (norm (st.val * 2 ^ 8) + c.val) % 64)] } := by
  have h2 : norm 6 = 6 := ok.small _ (by norm_num) (by norm_num)
  have h0 : norm 0 = 0 := ok.small _ (by norm_num) (by norm_num)
  have h4 : norm (-6) = -6 := ok.small _ (by norm_num) (by norm_num)
  simp [encodeByte, h, h2, h4, h0, drain]

/-- The 6-bit values the code reads off the accumulator while three bytes pass, and off its
shifted value after one or two bytes, in terms of the bytes alone. -/
theorem sextets (norm : Int → Int) (ok : NormOK norm) (v : Int) (a b c : Fin 256) :
    norm (norm (v * 2 ^ 8) + a.val) / 4 % 64 = ((a.val / 4 : Nat) : Int) ∧
    norm (norm (norm (norm (v * 2 ^ 8) + a.val) * 2 ^ 8) + b.val) / 16 % 64
      = ((a.val % 4 * 16 + b.val / 16 : Nat) : Int) ∧
    norm (norm (norm (norm (norm (norm (v * 2 ^ 8) + a.val) * 2 ^ 8) + b.val) * 2 ^ 8) + c.val)
        / 64 % 64 = ((b.val % 16 * 4 + c.val / 64 : Nat) : Int) ∧
    norm (norm (norm (norm (norm (norm (v * 2 ^ 8) + a.val) * 2 ^ 8) + b.val) * 2 ^ 8) + c.val)
        % 64 = ((c.val % 64 : Nat) : Int) ∧
    norm (norm (norm (v * 2 ^ 8) + a.val) * 2 ^ 8) / 16 % 64 = ((a.val % 4 * 16 : Nat) : Int) ∧
    norm (norm (norm (norm (norm (v * 2 ^ 8) + a.val) * 2 ^ 8) + b.val) * 2 ^ 8) / 64 % 64
      = ((b.val % 16 * 4 : Nat) : Int) := by
  obtain ⟨m1, h1⟩ := ok.congruent (v * 2 ^ 8)
  obtain ⟨m2, h2⟩ := ok.congruent (norm (v * 2 ^ 8) + a.val)
  obtain ⟨m3, h3⟩ := ok.congruent (norm (norm (v * 2 ^ 8) + a.val) * 2 ^ 8)
  obtain ⟨m4, h4⟩ := ok.congruent (norm (norm (norm (v * 2 ^ 8) + a.val) * 2 ^ 8) + b.val)
  obtain ⟨m5, h5⟩ := ok.congruent
    (norm (norm (norm (norm (v * 2 ^ 8) + a.val) * 2 ^ 8) + b.val) * 2 ^ 8)
  obtain ⟨m6, h6⟩ := ok.congruent
    (norm (norm (norm (norm (norm (v * 2 ^ 8) + a.val) * 2 ^ 8) + b.val) * 2 ^ 8) + c.val)
  have ha := a.isLt
  have hb := b.isLt
  have hc := c.isLt
  have e8 : (2 : Int) ^ 8 = 256 := by norm_num
  simp only [e8] at h1 h2 h3 h4 h5 h6 ⊢
  refine ⟨?_, ?_, ?_, ?_, ?_, ?_⟩ <;> push_cast <;> omega

/-- With no bits pending the statement after the loop emits nothing. -/
theorem encodeTail_m6 (norm : Int → Int) (st : EncoderState) (h : st.valb = -6) :
    encodeTail norm st = st.out := by
  simp [encodeTail, h]

/-- With two bits pending the statement after the loop emits them, shifted up. -/
theorem encodeTail_m4 (norm : Int → Int) (ok : NormOK norm) (st : EncoderState)
    (h : st.valb = -4) :
    encodeTail norm st = st.out ++ [codeAt (norm (st.val * 2 ^ 8) / 16 % 64)] := by
  have h4 : norm 4 = 4 := ok.small _ (by norm_num) (by norm_num)
  simp [encodeTail, h, h4]

/-- With four bits pending the statement after the loop emits them, shifted up. -/
theorem encodeTail_m2 (norm : Int → Int) (ok : NormOK norm) (st : EncoderState)
    (h : st.valb = -2) :
    encodeTail norm st = st.out ++ [codeAt (norm (st.val * 2 ^ 8) / 64 % 64)] := by
  have h6 : norm 6 = 6 := ok.small _ (by norm_num) (by norm_num)
  simp [encodeTail, h, h6]

/-- A length divisible by four needs no padding. -/
theorem padLoop_zero (l : List Char) (h : l.length % 4 = 0) : padLoop 3 l = l := by
  simp [padLoop, h]

/-- Two characters short of a multiple of four: the loop appends two `=` and stops. -/
theorem padLoop_two (l : List Char) (h : l.length % 4 = 2) :
    padLoop 3 l = l ++ ['=', '='] := by
  have h1 : (l.length + 1) % 4 = 3 := by omega
  have h2 : (l.length + 1 + 1) % 4 = 0 := by omega
  simp [padLoop, h, h1, h2]

/-- One character short of a multiple of four: the loop appends one `=` and stops. -/
theorem padLoop_three (l : List Char) (h : l.length % 4 = 3) : padLoop 3 l = l ++ ['='] := by
  have h1 : (l.length + 1) % 4 = 0 := by omega
  simp [padLoop, h, h1]

/-- From a state with no bits pending and a multiple of four characters written, the code
appends the RFC 4648 encoding of the remaining bytes, for every admissible reading of `int`. -/
theorem encode_fold (norm : Int → Int) (ok : NormOK norm) (data : List (Fin 256)) :
    ∀ st : EncoderState, st.valb = -6 → st.out.length % 4 = 0 →
      padLoop 3 (encodeTail norm (data.foldl (encodeByte norm) st))
        = st.out ++ base64Rfc data := by
  induction data using base64Rfc.induct with
  | case1 =>
    intro st hv hl
    simp [encodeTail_m6 norm st hv, base64Rfc, padLoop_zero _ hl]
  | case2 a =>
    intro st hv hl
    obtain ⟨s1, _, _, _, s5, _⟩ := sextets norm ok st.val a a a
    have hi1 := codeAt_eq_rfcAlphabet ⟨a.val / 4, by omega⟩
    have hi2 := codeAt_eq_rfcAlphabet ⟨a.val % 4 * 16, by omega⟩
    simp only [List.foldl_cons, List.foldl_nil, encodeByte_m6 norm ok st a hv]
    rw [encodeTail_m4 norm ok _ rfl, s1, s5, hi1, hi2]
    rw [padLoop_two _ (by simp; omega)]
    simp [base64Rfc]
  | case3 a b =>
    intro st hv hl
    obtain ⟨s1, s2, _, _, _, s6⟩ := sextets norm ok st.val a b b
    have hi1 := codeAt_eq_rfcAlphabet ⟨a.val / 4, by omega⟩
    have hi2 := codeAt_eq_rfcAlphabet ⟨a.val % 4 * 16 + b.val / 16, by omega⟩
    have hi3 := codeAt_eq_rfcAlphabet ⟨b.val % 16 * 4, by omega⟩
    simp only [List.foldl_cons, List.foldl_nil, encodeByte_m6 norm ok st a hv]
    rw [encodeByte_m4 norm ok _ b rfl]
    rw [encodeTail_m2 norm ok _ rfl, s1, s2, s6, hi1, hi2, hi3]
    rw [padLoop_three _ (by simp; omega)]
    simp [base64Rfc]
  | case4 a b c rest ih =>
    intro st hv hl
    obtain ⟨s1, s2, s3, s4, _, _⟩ := sextets norm ok st.val a b c
    have hi1 := codeAt_eq_rfcAlphabet ⟨a.val / 4, by omega⟩
    have hi2 := codeAt_eq_rfcAlphabet ⟨a.val % 4 * 16 + b.val / 16, by omega⟩
    have hi3 := codeAt_eq_rfcAlphabet ⟨b.val % 16 * 4 + c.val / 64, by omega⟩
    have hi4 := codeAt_eq_rfcAlphabet ⟨c.val % 64, by omega⟩
    simp only [List.foldl_cons, encodeByte_m6 norm ok st a hv]
    rw [encodeByte_m4 norm ok _ b rfl, encodeByte_m2 norm ok _ c rfl]
    rw [ih _ rfl (by simp; omega)]
    simp only [base64Rfc]
    rw [s1, s2, s3, s4, hi1, hi2, hi3, hi4]
    simp

/-- The RFC 4648 encoding of `n` bytes has `4 * ((n + 2) / 3)` characters. -/
theorem base64Rfc_length (data : List (Fin 256)) :
    (base64Rfc data).length = 4 * ((data.length + 2) / 3) := by
  induction data using base64Rfc.induct with
  | case1 => rfl
  | case2 a => simp [base64Rfc]
  | case3 a b => simp [base64Rfc]
  | case4 a b c rest ih =>
    simp only [base64Rfc, List.length_cons, ih]
    omega

/-- The coordinator `stop` leaves behind is the last state of `stopSteps`; when the system is
running, the wait predicate holds for every `lastID` in both states of `stopSteps`, and in the
last one `waitForNewFrame` returns the empty frame. -/
theorem stop_final_state (m : SystemManager) (ctx : SharedContext) (lastID : Int)
    (h : m.isRunning = true) :
    (m.stop ctx).1.isRunning = false ∧
      (m.stopSteps ctx).getLast? = some (m.stop ctx).2 ∧
      (∀ s ∈ m.stopSteps ctx, s.waitPredicate lastID = true) ∧
      (m.stop ctx).2.waitForNewFrame lastID = some {} := by
  have hs : m.stop ctx
      = ({ m with isRunning := false }, (ctx.setIsMapping false).setIsInferencing false) := by
    simp [SystemManager.stop, h]
  have ht : m.stopSteps ctx
      = [ctx.setIsMapping false, (ctx.setIsMapping false).setIsInferencing false] := by
    simp [SystemManager.stopSteps, h]
  rw [hs, ht]
  refine ⟨rfl, rfl, ?_, ?_⟩
  · intro s hmem
    simp only [List.mem_cons, List.mem_singleton, List.not_mem_nil, or_false] at hmem
    rcases hmem with rfl | rfl <;>
      simp [SharedContext.waitPredicate, SharedContext.setIsMapping,
        SharedContext.setIsInferencing]
  · simp [SharedContext.waitForNewFrame, SharedContext.waitPredicate,
      SharedContext.setIsMapping, SharedContext.setIsInferencing]

/-- The image of a capture is never empty. -/
theorem imageNo_empty (i : Nat) : (imageNo i).empty = false := by
  simp [imageNo, Mat.empty]

/-- A run of capturing iterations publishes exactly the images captured. -/
theorem capturedImages_ticks (l : List Nat) :
    capturedImages (l.map (fun i => WorkerOp.tick (some (imageNo (i + 1))) 0 0))
      = l.map (fun i => imageNo (i + 1)) := by
  induction l with
  | nil => rfl
  | cons i l ih => simp [capturedImages, imageNo_empty, ih]

/-- A run of iterations of the capture loop alone has the loop as sole producer. -/
theorem soleProducer_ticks (l : List Nat) :
    soleProducer (l.map (fun i => WorkerOp.tick (some (imageNo (i + 1))) 0 0)) := by
  induction l with
  | nil => trivial
  | cons i l ih => exact ih

/-- The run `tickRun n` has the capture loop as sole producer. -/
theorem soleProducer_tickRun (n : Nat) : soleProducer (tickRun n) :=
  soleProducer_ticks (List.range n)

/-- The run of `n + 1` iterations is the run of `n` followed by the capture of
`imageNo (n + 1)`. -/
theorem tickRun_succ (n : Nat) :
    tickRun (n + 1) = tickRun n ++ [WorkerOp.tick (some (imageNo (n + 1))) 0 0] := by
  simp [tickRun, List.range_succ]

/-- The run `tickRun n` publishes `n` captures, the last one being `imageNo n`. -/
theorem capturedImages_tickRun (n : Nat) :
    (capturedImages (tickRun n)).length = n ∧
      (capturedImages (tickRun (n + 1))).getLast? = some (imageNo (n + 1)) := by
  constructor
  · simp [tickRun, capturedImages_ticks]
  · rw [tickRun_succ, capturedImages_append]
    simp [capturedImages, imageNo_empty]

/-- The run whose last capture finds the counter at `2 ^ 63 - 1`: the counter wraps to
`-2 ^ 63` and the stored frame stays the one of the capture before. -/
theorem captureRun_tickRun_wrap (n : Nat) (hn : (n : Int) = 2 ^ 63 - 1) :
    (captureRun {} 0 (tickRun (n + 1))).1.currentFrame.sequenceID = 2 ^ 63 - 1 ∧
      (captureRun {} 0 (tickRun (n + 1))).1.currentFrame.image = some (imageNo n) ∧
      (captureRun {} 0 (tickRun (n + 1))).2 = -2 ^ 63 := by
  have hpos : n ≠ 0 := by
    intro h0
    rw [h0] at hn
    norm_num at hn
  obtain ⟨p, rfl⟩ := Nat.exists_eq_succ_of_ne_zero hpos
  have hlen := (capturedImages_tickRun (p + 1)).1
  have hlast := (capturedImages_tickRun p).2
  obtain ⟨h1, _, h3⟩ := captureRun_spec (tickRun (p + 1)) {} 0 (by decide) (le_refl _)
    (by rw [hlen]; omega) (soleProducer_tickRun _)
  obtain ⟨hi, hs⟩ := h3 _ hlast
  rw [hlen] at h1 hs
  have hk : (captureRun {} 0 (tickRun (p + 1))).2 = 2 ^ 63 - 1 := by
    rw [h1]
    omega
  have hs2 : (captureRun {} 0 (tickRun (p + 1))).1.currentFrame.sequenceID = 2 ^ 63 - 1 := by
    rw [hs]
    omega
  have ho := publishCapture_overflow (captureRun {} 0 (tickRun (p + 1))).1
    (imageNo (p + 1 + 1)) 0 0 (imageNo_empty _) hs2
  rw [tickRun_succ (p + 1), captureRun_append]
  simp only [captureRun, hk, ho.1, ho.2]
  exact ⟨hs2, hi, trivial⟩

/-- The run of `N` publishing iterations with `N = 2 ^ 63`: the stored frame is the one of the
iteration before the last, whose number is `2 ^ 63 - 1`. -/
theorem captureRun_tickRun_stale (N : Nat) (hN : (N : Int) = 2 ^ 63) :
    (capturedImages (tickRun N)).length = N ∧
      (capturedImages (tickRun N)).getLast? = some (imageNo N) ∧
      (captureRun {} 0 (tickRun N)).1.getCurrentFrame.sequenceID = 2 ^ 63 - 1 ∧
      (captureRun {} 0 (tickRun N)).1.getCurrentFrame.sequenceID
        ≠ ((capturedImages (tickRun N)).length : Int) ∧
      (captureRun {} 0 (tickRun N)).1.getCurrentFrame.image = some (imageNo (N - 1)) ∧
      (captureRun {} 0 (tickRun N)).1.getCurrentFrame.image ≠ some (imageNo N) := by
  have hpos : N ≠ 0 := by
    intro h0
    rw [h0] at hN
    norm_num at hN
  obtain ⟨n, rfl⟩ := Nat.exists_eq_succ_of_ne_zero hpos
  have hw := captureRun_tickRun_wrap n (by push_cast at hN; omega)
  have hc := capturedImages_tickRun n
  have hl := (capturedImages_tickRun (n + 1)).1
  simp only [SharedContext.getCurrentFrame]
  refine ⟨hl, hc.2, hw.1, ?_, by simpa using hw.2.1, ?_⟩
  · rw [hw.1, hl]
    omega
  · rw [hw.2.1]
    simp [imageNo]

/-- C1: after `setCurrentFrame(f)`, `getCurrentFrame()` is `f` when `f.sequenceID` exceeds the
stored frame's sequence number, and the previously stored frame otherwise. -/
theorem setCurrentFrame_getCurrentFrame (s : SharedContext) (f : FrameData) :
    (s.setCurrentFrame f).1.getCurrentFrame =
      if f.sequenceID > s.currentFrame.sequenceID then f else s.currentFrame := by
  unfold SharedContext.setCurrentFrame SharedContext.getCurrentFrame
  split <;> rfl

/-- C2: a frame whose sequence number does not exceed the stored one leaves the whole
coordinator state as it was, and submitting any frame a second time changes nothing more. -/
theorem setCurrentFrame_regression_noop (s : SharedContext) (f : FrameData) :
    (f.sequenceID ≤ s.currentFrame.sequenceID → (s.setCurrentFrame f).1 = s) ∧
      ((s.setCurrentFrame f).1.setCurrentFrame f).1 = (s.setCurrentFrame f).1 := by
  constructor
  · intro h
    simp [SharedContext.setCurrentFrame, not_lt.mpr h]
  · by_cases h : f.sequenceID > s.currentFrame.sequenceID
    · simp [SharedContext.setCurrentFrame, h]
    · simp [SharedContext.setCurrentFrame, h]

/-- Witness for C2: the stored frame has sequence number 5 and a frame numbered 3 arrives. -/
theorem setCurrentFrame_regression_noop_witness :
    (sampleFrame 3).sequenceID ≤ sampleContext.currentFrame.sequenceID ∧
      (sampleContext.setCurrentFrame (sampleFrame 3)).1 = sampleContext :=
  ⟨by decide, (setCurrentFrame_regression_noop sampleContext (sampleFrame 3)).1 (by decide)⟩

/-- C3: along every finite run of coordinator operations, started in any state, the sequence
number read through `getCurrentFrame()` never decreases from one state to the next, so it is
at the end of the run at least what it was at the start. -/
theorem getCurrentFrame_sequenceID_monotone (s : SharedContext) (ops : List Op) :
    List.Chain
        (fun a b : SharedContext => a.getCurrentFrame.sequenceID ≤ b.getCurrentFrame.sequenceID)
        s (statesAfter s ops) ∧
      s.getCurrentFrame.sequenceID ≤ (run s ops).getCurrentFrame.sequenceID := by
  induction ops generalizing s with
  | nil => exact ⟨List.Chain.nil, le_refl _⟩
  | cons op ops ih =>
    obtain ⟨hc, hl⟩ := ih (Op.apply s op)
    refine ⟨List.Chain.cons (Op.apply_sequenceID_le s op) hc, ?_⟩
    exact le_trans (Op.apply_sequenceID_le s op) hl

/-- C4: starting from a freshly created coordinator, after any list of `setCurrentFrame` calls
the stored sequence number is the maximum of `-1` and the submitted sequence numbers; it is the
same for every reordering of the submissions; and submitting frames numbered 1, 2, 1 leaves a
frame numbered 2. -/
theorem publishAll_fresh_sequenceID (frames frames2 : List FrameData) (f1 f2 f3 : FrameData) :
    ({} : SharedContext).getCurrentFrame.sequenceID = -1 ∧
      (publishAll {} frames).getCurrentFrame.sequenceID = maxSequenceID frames ∧
      (frames.Perm frames2 →
        (publishAll {} frames).getCurrentFrame.sequenceID =
          (publishAll {} frames2).getCurrentFrame.sequenceID) ∧
      (f1.sequenceID = 1 → f2.sequenceID = 2 → f3.sequenceID = 1 →
        (publishAll {} [f1, f2, f3]).getCurrentFrame.sequenceID = 2) := by
  refine ⟨rfl, publishAll_sequenceID {} frames, ?_, ?_⟩
  · intro h
    have h1 := publishAll_sequenceID {} frames
    have h2 := publishAll_sequenceID {} frames2
    have h3 := maxSequenceID_perm h
    simp only [maxSequenceID] at h3
    simp only [SharedContext.getCurrentFrame]
    rw [h1, h2]
    exact h3
  · intro h1 h2 h3
    simp only [SharedContext.getCurrentFrame]
    rw [publishAll_sequenceID]
    simp [h1, h2, h3]

/-- Witness for C4: the submissions 1, 2, 1 and their reordering 2, 1, 1. -/
theorem publishAll_fresh_sequenceID_witness :
    (publishAll {} [sampleFrame 1, sampleFrame 2, sampleFrame 1]).getCurrentFrame.sequenceID
        = (publishAll {} [sampleFrame 2, sampleFrame 1, sampleFrame 1]).getCurrentFrame.sequenceID ∧
      (publishAll {} [sampleFrame 1, sampleFrame 2, sampleFrame 1]).getCurrentFrame.sequenceID
        = 2 :=
  ⟨(publishAll_fresh_sequenceID [sampleFrame 1, sampleFrame 2, sampleFrame 1]
      [sampleFrame 2, sampleFrame 1, sampleFrame 1] (sampleFrame 1) (sampleFrame 2)
      (sampleFrame 1)).2.2.1 (List.Perm.swap _ _ _),
   (publishAll_fresh_sequenceID [] [] (sampleFrame 1) (sampleFrame 2)
      (sampleFrame 1)).2.2.2 rfl rfl rfl⟩

/-- C5, as stated, fails: on a freshly created coordinator the default configuration equals
the stored one, yet when a window titled `GameProcess` exists (handle 7) the call stores the
found handle and steps the version from 0 to 1. -/
theorem setCurrentCaptureConfig_equal_config_rewritten :
    ({} : CaptureConfig).eq ({} : SharedContext).currentCaptureConfig = true ∧
      ({} : SharedContext).configVersion = 0 ∧
      ({} : SharedContext).currentCaptureConfig.targetHwnd = 0 ∧
      (SharedContext.setCurrentCaptureConfig (Win32.allResolveTo 7) {} {}).configVersion = 1 ∧
      (SharedContext.setCurrentCaptureConfig (Win32.allResolveTo 7) {}
        {}).currentCaptureConfig.targetHwnd = 7 := by
  refine ⟨by decide, rfl, rfl, ?_, ?_⟩
  · rw [setCurrentCaptureConfig_of_ne _ _ _ (by decide)]
    decide
  · rw [setCurrentCaptureConfig_stored]
    rfl

/-- C5, amended: for a configuration `c` equal to the stored one, `setCurrentCaptureConfig(c)`
leaves the whole state (version and stored configuration included) as it was when the window
name resolves to the handle `c` carries, and changes the stored configuration when it resolves
to another handle. -/
theorem setCurrentCaptureConfig_equal_config (w : Win32) (s : SharedContext) (c : CaptureConfig)
    (h : c.eq s.currentCaptureConfig = true) :
    (SharedContext.resolveHwnd w c.targetWindowName = c.targetHwnd →
        SharedContext.setCurrentCaptureConfig w s c = s ∧
        (SharedContext.setCurrentCaptureConfig w s c).getCaptureConfigVersion
          = s.getCaptureConfigVersion ∧
        (SharedContext.setCurrentCaptureConfig w s c).getCurrentCaptureConfig
          = s.getCurrentCaptureConfig) ∧
      (SharedContext.resolveHwnd w c.targetWindowName ≠ c.targetHwnd →
        (SharedContext.setCurrentCaptureConfig w s c).getCurrentCaptureConfig
          ≠ s.getCurrentCaptureConfig) := by
  rw [CaptureConfig.eq_eq_true_iff] at h
  subst h
  constructor
  · intro hr
    have heq : SharedContext.setCurrentCaptureConfig w s s.currentCaptureConfig = s := by
      apply setCurrentCaptureConfig_of_eq
      simp only [SharedContext.resolvedConfig, hr]
    rw [heq]
    exact ⟨rfl, rfl, rfl⟩
  · intro hr hc
    apply hr
    simp only [SharedContext.getCurrentCaptureConfig] at hc
    rw [setCurrentCaptureConfig_stored] at hc
    have := congrArg CaptureConfig.targetHwnd hc
    simpa [SharedContext.resolvedConfig] using this

/-- Witness for C5, amended: the default configuration on a fresh coordinator, no window
found. -/
theorem setCurrentCaptureConfig_equal_config_witness :
    ({} : CaptureConfig).eq ({} : SharedContext).currentCaptureConfig = true ∧
      SharedContext.setCurrentCaptureConfig (Win32.allResolveTo 0) {} {} = {} :=
  ⟨by decide,
   ((setCurrentCaptureConfig_equal_config (Win32.allResolveTo 0) {} {} (by decide)).1 rfl).1⟩

/-- C6, as stated, fails: when the counter holds the largest `uint64_t`, a call with a
configuration that differs from the stored one (method GDI instead of WinGC) leaves the version
at 0, not one more than before. -/
theorem setCurrentCaptureConfig_version_wraps :
    sampleContextLastVersion.currentCaptureConfig.Method
        ≠ (SharedContext.resolvedConfig (Win32.allResolveTo 0) (sampleConfigX 0)).Method ∧
      sampleContextLastVersion.getCaptureConfigVersion = 2 ^ 64 - 1 ∧
      (SharedContext.setCurrentCaptureConfig (Win32.allResolveTo 0) sampleContextLastVersion
        (sampleConfigX 0)).getCaptureConfigVersion = 0 ∧
      (SharedContext.setCurrentCaptureConfig (Win32.allResolveTo 0) sampleContextLastVersion
        (sampleConfigX 0)).getCaptureConfigVersion
          ≠ sampleContextLastVersion.getCaptureConfigVersion + 1 := by
  have h : (SharedContext.setCurrentCaptureConfig (Win32.allResolveTo 0)
      sampleContextLastVersion (sampleConfigX 0)).getCaptureConfigVersion = 0 := by
    rw [setCurrentCaptureConfig_of_ne _ _ _ (by decide)]
    decide
  refine ⟨by decide, by decide, h, ?_⟩
  rw [h]
  decide

/-- C6, amended: `setCurrentCaptureConfig(c)` steps `configVersion` to its successor modulo
`2 ^ 64` (so by exactly 1 whenever the counter is below `2 ^ 64 - 1`) when the resolved
configuration differs from the stored one in at least one of the four fields, leaves it as it
was when it does not differ, and no other coordinator operation changes `configVersion`. -/
theorem setCurrentCaptureConfig_configVersion (w : Win32) (s : SharedContext)
    (c : CaptureConfig) (op : Op) :
    ((SharedContext.resolvedConfig w c).Method ≠ s.currentCaptureConfig.Method ∨
        (SharedContext.resolvedConfig w c).targetWindowName
          ≠ s.currentCaptureConfig.targetWindowName ∨
        (SharedContext.resolvedConfig w c).targetHwnd ≠ s.currentCaptureConfig.targetHwnd ∨
        (SharedContext.resolvedConfig w c).captureFps ≠ s.currentCaptureConfig.captureFps →
      (SharedContext.setCurrentCaptureConfig w s c).getCaptureConfigVersion
          = (s.getCaptureConfigVersion + 1) % 2 ^ 64 ∧
        (s.getCaptureConfigVersion < 2 ^ 64 - 1 →
          (SharedContext.setCurrentCaptureConfig w s c).getCaptureConfigVersion
            = s.getCaptureConfigVersion + 1)) ∧
      (¬ ((SharedContext.resolvedConfig w c).Method ≠ s.currentCaptureConfig.Method ∨
          (SharedContext.resolvedConfig w c).targetWindowName
            ≠ s.currentCaptureConfig.targetWindowName ∨
          (SharedContext.resolvedConfig w c).targetHwnd ≠ s.currentCaptureConfig.targetHwnd ∨
          (SharedContext.resolvedConfig w c).captureFps ≠ s.currentCaptureConfig.captureFps) →
        (SharedContext.setCurrentCaptureConfig w s c).getCaptureConfigVersion
          = s.getCaptureConfigVersion) ∧
      ((∀ w2 c2, op ≠ Op.setCurrentCaptureConfig w2 c2) →
        (Op.apply s op).getCaptureConfigVersion = s.getCaptureConfigVersion) := by
  refine ⟨?_, ?_, ?_⟩
  · intro hd
    have hne : s.currentCaptureConfig ≠ SharedContext.resolvedConfig w c := by
      intro he
      rw [he] at hd
      simp at hd
    rw [setCurrentCaptureConfig_of_ne w s c hne]
    refine ⟨rfl, ?_⟩
    intro hlt
    simp only [SharedContext.getCaptureConfigVersion] at hlt ⊢
    exact Nat.mod_eq_of_lt (by omega)
  · intro hd
    have heq : s.currentCaptureConfig = SharedContext.resolvedConfig w c := by
      by_contra hne
      apply hd
      have h4 : ¬ ((SharedContext.resolvedConfig w c).Method = s.currentCaptureConfig.Method ∧
          (SharedContext.resolvedConfig w c).targetWindowName
            = s.currentCaptureConfig.targetWindowName ∧
          (SharedContext.resolvedConfig w c).targetHwnd = s.currentCaptureConfig.targetHwnd ∧
          (SharedContext.resolvedConfig w c).captureFps
            = s.currentCaptureConfig.captureFps) := by
        intro ⟨h1, h2, h3, h4⟩
        apply hne
        cases hs : s.currentCaptureConfig
        cases hr : SharedContext.resolvedConfig w c
        rw [hs, hr] at h1 h2 h3 h4
        simp only at h1 h2 h3 h4
        rw [h1, h2, h3, h4]
      tauto
    rw [setCurrentCaptureConfig_of_eq w s c heq]
  · intro hop
    cases op with
    | setCurrentCaptureConfig w2 c2 => exact absurd rfl (hop w2 c2)
    | setCurrentFrame frame =>
      simp only [Op.apply, SharedContext.setCurrentFrame, SharedContext.getCaptureConfigVersion]
      split <;> rfl
    | setCurrentDepthFrame frame => rfl
    | setIsMapping state => rfl
    | setIsInferencing state => rfl
    | setCaptureTime ms => rfl
    | setInferenceTime ms => rfl

/-- Witness for C6, amended: on a fresh coordinator the GDI configuration for `X` differs from
the stored default and the version goes from 0 to 1; `setIsMapping` leaves it alone. -/
theorem setCurrentCaptureConfig_configVersion_witness :
    (SharedContext.setCurrentCaptureConfig (Win32.allResolveTo 0) {}
        (sampleConfigX 0)).getCaptureConfigVersion = ({} : SharedContext).getCaptureConfigVersion + 1 ∧
      (Op.apply {} (Op.setIsMapping true)).getCaptureConfigVersion
        = ({} : SharedContext).getCaptureConfigVersion :=
  ⟨((setCurrentCaptureConfig_configVersion (Win32.allResolveTo 0) {} (sampleConfigX 0)
      (Op.setIsMapping true)).1 (Or.inl (by decide))).2 (by decide),
   (setCurrentCaptureConfig_configVersion (Win32.allResolveTo 0) {} (sampleConfigX 0)
      (Op.setIsMapping true)).2.2 (fun _ _ h => Op.noConfusion h)⟩

/-- C7: when the window name of `c` resolves to the same handle on both calls, the second of
two consecutive `setCurrentCaptureConfig(c)` calls leaves the whole coordinator state as the
first one left it, and across the pair `configVersion` is stepped at most once: it ends at most
1 above its start, either unchanged or at the successor modulo `2 ^ 64`. -/
theorem setCurrentCaptureConfig_twice (w1 w2 : Win32) (s : SharedContext) (c : CaptureConfig)
    (h : SharedContext.resolveHwnd w1 c.targetWindowName
      = SharedContext.resolveHwnd w2 c.targetWindowName) :
    SharedContext.setCurrentCaptureConfig w2 (SharedContext.setCurrentCaptureConfig w1 s c) c
        = SharedContext.setCurrentCaptureConfig w1 s c ∧
      (SharedContext.setCurrentCaptureConfig w2 (SharedContext.setCurrentCaptureConfig w1 s c)
        c).getCaptureConfigVersion ≤ s.getCaptureConfigVersion + 1 ∧
      ((SharedContext.setCurrentCaptureConfig w2 (SharedContext.setCurrentCaptureConfig w1 s c)
          c).getCaptureConfigVersion = s.getCaptureConfigVersion ∨
        (SharedContext.setCurrentCaptureConfig w2 (SharedContext.setCurrentCaptureConfig w1 s c)
          c).getCaptureConfigVersion = (s.getCaptureConfigVersion + 1) % 2 ^ 64) := by
  have h2 : SharedContext.setCurrentCaptureConfig w2
      (SharedContext.setCurrentCaptureConfig w1 s c) c
        = SharedContext.setCurrentCaptureConfig w1 s c := by
    apply setCurrentCaptureConfig_of_eq
    rw [setCurrentCaptureConfig_stored]
    simp only [SharedContext.resolvedConfig, h]
  rw [h2]
  refine ⟨rfl, ?_, ?_⟩
  · by_cases he : s.currentCaptureConfig = SharedContext.resolvedConfig w1 c
    · rw [setCurrentCaptureConfig_of_eq w1 s c he]
      exact Nat.le_succ _
    · rw [setCurrentCaptureConfig_of_ne w1 s c he]
      simp only [SharedContext.getCaptureConfigVersion]
      exact Nat.mod_le _ _
  · by_cases he : s.currentCaptureConfig = SharedContext.resolvedConfig w1 c
    · rw [setCurrentCaptureConfig_of_eq w1 s c he]
      exact Or.inl rfl
    · rw [setCurrentCaptureConfig_of_ne w1 s c he]
      exact Or.inr rfl

/-- Witness for C7: the default configuration set twice on a fresh coordinator while a window
with handle 7 carries its title. -/
theorem setCurrentCaptureConfig_twice_witness :
    SharedContext.setCurrentCaptureConfig (Win32.allResolveTo 7)
        (SharedContext.setCurrentCaptureConfig (Win32.allResolveTo 7) {} {}) {}
      = SharedContext.setCurrentCaptureConfig (Win32.allResolveTo 7) {} {} :=
  (setCurrentCaptureConfig_twice (Win32.allResolveTo 7) (Win32.allResolveTo 7) {} {} rfl).1

/-- C8: on a freshly created coordinator (version 0), setting the configuration with method
GDI, name `X` and 30 frames per second twice, the name resolving to the same handle both times,
leaves `configVersion` at 1 after the first call and still at 1 after the second, whatever
handle the caller put into the argument. -/
theorem setCurrentCaptureConfig_scenario (w1 w2 : Win32) (h1 h2 : HWND)
    (h : SharedContext.resolveHwnd w1 "X" = SharedContext.resolveHwnd w2 "X") :
    ({} : SharedContext).getCaptureConfigVersion = 0 ∧
      (SharedContext.setCurrentCaptureConfig w1 {} (sampleConfigX h1)).getCaptureConfigVersion
        = 1 ∧
      (SharedContext.setCurrentCaptureConfig w2
        (SharedContext.setCurrentCaptureConfig w1 {} (sampleConfigX h1))
        (sampleConfigX h2)).getCaptureConfigVersion = 1 := by
  have hne : ({} : SharedContext).currentCaptureConfig
      ≠ SharedContext.resolvedConfig w1 (sampleConfigX h1) := by
    intro he
    have hm := congrArg CaptureConfig.Method he
    simp [SharedContext.resolvedConfig, sampleConfigX] at hm
  have hv : (SharedContext.setCurrentCaptureConfig w1 {}
      (sampleConfigX h1)).getCaptureConfigVersion = 1 := by
    rw [setCurrentCaptureConfig_of_ne w1 _ _ hne]
    rfl
  have h2 : SharedContext.setCurrentCaptureConfig w2
      (SharedContext.setCurrentCaptureConfig w1 {} (sampleConfigX h1)) (sampleConfigX h2)
        = SharedContext.setCurrentCaptureConfig w1 {} (sampleConfigX h1) := by
    apply setCurrentCaptureConfig_of_eq
    rw [setCurrentCaptureConfig_stored]
    simp only [SharedContext.resolvedConfig, sampleConfigX, h]
  rw [h2]
  exact ⟨rfl, hv, hv⟩

/-- Witness for C8: no window titled `X` exists at either call. -/
theorem setCurrentCaptureConfig_scenario_witness :
    (SharedContext.setCurrentCaptureConfig (Win32.allResolveTo 0)
      (SharedContext.setCurrentCaptureConfig (Win32.allResolveTo 0) {} (sampleConfigX 0))
      (sampleConfigX 0)).getCaptureConfigVersion = 1 :=
  (setCurrentCaptureConfig_scenario (Win32.allResolveTo 0) (Win32.allResolveTo 0) 0 0 rfl).2.2

/-- C10: in a state whose inferencing flag is false, `waitForNewFrame(lastID)` returns exactly
when its wait predicate holds and then returns the empty frame (no image, sequence number -1);
so with mapping on, inferencing off and a non-empty stored frame numbered 5,
`waitForNewFrame(0)` returns the empty frame. -/
theorem waitForNewFrame_not_inferencing (s : SharedContext) (lastID : Int)
    (h : s.getIsInferencing = false) :
    (s.waitForNewFrame lastID = if s.waitPredicate lastID then some {} else none) ∧
      (∀ r, s.waitForNewFrame lastID = some r →
        r.image = none ∧ r.sequenceID = -1 ∧ r.empty = true) ∧
      (s.getIsMapping = true → s.getCurrentFrame.empty = false →
        s.getCurrentFrame.sequenceID = 5 →
          s.waitForNewFrame 0 = some {} ∧ (0 : Int) < s.getCurrentFrame.sequenceID) := by
  simp only [SharedContext.getIsInferencing] at h
  have h1 : ∀ n, s.waitForNewFrame n = if s.waitPredicate n then some {} else none := by
    intro n
    simp [SharedContext.waitForNewFrame, h]
  refine ⟨h1 lastID, ?_, ?_⟩
  · intro r hr
    rw [h1] at hr
    split at hr
    · cases hr
      exact ⟨rfl, rfl, rfl⟩
    · cases hr
  · intro _ he hs
    simp only [SharedContext.getCurrentFrame] at he hs
    rw [h1]
    simp [SharedContext.waitPredicate, SharedContext.getCurrentFrame, he, hs]

/-- Witness for C10: mapping on, inferencing off, `sampleFrame 5` stored. -/
theorem waitForNewFrame_not_inferencing_witness :
    (sampleContext.setIsMapping true).getIsInferencing = false ∧
      (sampleContext.setIsMapping true).getCurrentFrame.empty = false ∧
      (sampleContext.setIsMapping true).waitForNewFrame 0 = some {} :=
  ⟨rfl, by decide,
   ((waitForNewFrame_not_inferencing (sampleContext.setIsMapping true) 0 rfl).2.2
      rfl (by decide) rfl).1⟩

/-- C11 at a failing input: with mapping off, inferencing on and the non-empty frame numbered
5 stored, no frame qualifies for `waitForNewFrame(5)`, yet the call returns the stored frame,
image and sequence number 5 included, where the empty frame is documented. -/
theorem waitForNewFrame_mapping_off_stale_frame :
    sampleContextInferring.getIsMapping = false ∧
      sampleContextInferring.getCurrentFrame.sequenceID ≤ 5 ∧
      sampleContextInferring.waitForNewFrame 5 = some (sampleFrame 5) ∧
      (sampleFrame 5).image ≠ none ∧
      (sampleFrame 5).sequenceID ≠ -1 ∧
      (sampleFrame 5).empty = false := by
  decide

/-- C12 at a failing input: with mapping off and inferencing on, `waitForNewFrame(5)` hands out
a non-empty frame whose sequence number, 5, is not greater than `lastID`. -/
theorem waitForNewFrame_returns_not_newer :
    ∃ r, sampleContextInferring.waitForNewFrame 5 = some r ∧ r.empty = false ∧
      ¬ (r.sequenceID > 5) :=
  ⟨sampleFrame 5, by decide, by decide, by decide⟩

/-- C13: `waitForNewFrame(lastID)` can return in a state exactly when the stored frame is
non-empty with a sequence number above `lastID` or the mapping flag is false; the value of the
inferencing flag does not matter for that; and a return leaves the coordinator state as it
was. -/
theorem waitForNewFrame_enabled_iff (s : SharedContext) (lastID : Int) :
    ((s.waitForNewFrame lastID).isSome = true ↔
        (s.getCurrentFrame.empty = false ∧ s.getCurrentFrame.sequenceID > lastID) ∨
          s.getIsMapping = false) ∧
      (∀ state, ((s.setIsInferencing state).waitForNewFrame lastID).isSome
        = (s.waitForNewFrame lastID).isSome) ∧
      (∀ s2 r, s.waitForNewFrameStep lastID = some (s2, r) →
        s2 = s ∧ s.waitForNewFrame lastID = some r) := by
  refine ⟨?_, ?_, ?_⟩
  · rw [waitForNewFrame_isSome]
    exact waitPredicate_eq_true_iff s lastID
  · intro state
    rw [waitForNewFrame_isSome, waitForNewFrame_isSome, waitPredicate_setIsInferencing]
  · intro s2 r h
    unfold SharedContext.waitForNewFrameStep at h
    cases hw : s.waitForNewFrame lastID with
    | none => simp [hw] at h
    | some r2 =>
      simp only [hw, Option.some.injEq, Prod.mk.injEq] at h
      exact ⟨h.1.symm, by rw [h.2]⟩

/-- Witness for C13: the call `waitForNewFrame(0)` returns `sampleFrame 5` from the state with
mapping and inferencing on that holds it, and leaves that state as it was. -/
theorem waitForNewFrame_enabled_iff_witness :
    (sampleContextWaiting.setCurrentFrame (sampleFrame 5)).1.waitForNewFrameStep 0
        = some ((sampleContextWaiting.setCurrentFrame (sampleFrame 5)).1, sampleFrame 5) ∧
      (sampleContextWaiting.setCurrentFrame (sampleFrame 5)).1.waitForNewFrame 0
        = some (sampleFrame 5) :=
  ⟨by decide,
   ((waitForNewFrame_enabled_iff (sampleContextWaiting.setCurrentFrame (sampleFrame 5)).1
      0).2.2 (sampleContextWaiting.setCurrentFrame (sampleFrame 5)).1 (sampleFrame 5)
      (by decide)).2⟩

/-- C14, as stated, fails: with mapping on and a stored frame numbered 10 that carries no
image, the non-empty frame numbered 5 (above `N = 0`) is discarded and `waitForNewFrame(0)`
stays blocked; likewise on a fresh coordinator with mapping on for a non-empty frame numbered
-1 and `N = -2`. -/
theorem setCurrentFrame_discarded_waiter_blocked :
    (sampleFrame 5).empty = false ∧ (sampleFrame 5).sequenceID > 0 ∧
      (sampleContextEmptyAhead.setCurrentFrame (sampleFrame 5)).1.waitPredicate 0 = false ∧
      (sampleContextEmptyAhead.setCurrentFrame (sampleFrame 5)).1.waitForNewFrame 0 = none ∧
      (sampleFrame (-1)).empty = false ∧ (sampleFrame (-1)).sequenceID > -2 ∧
      ((({} : SharedContext).setIsMapping true).setCurrentFrame
        (sampleFrame (-1))).1.waitForNewFrame (-2) = none := by
  decide

/-- C14, amended: for a non-empty frame `f` with `f.sequenceID > N`, the wait predicate of
`waitForNewFrame(N)` holds in the state after `setCurrentFrame(f)` exactly when `f` was
accepted (its number exceeds the stored one), or the stored frame is non-empty, or mapping is
off; in each of these cases the call returns. -/
theorem setCurrentFrame_releases_waiter (s : SharedContext) (f : FrameData) (N : Int)
    (h1 : f.empty = false) (h2 : f.sequenceID > N) :
    ((s.setCurrentFrame f).1.waitPredicate N = true ↔
        f.sequenceID > s.getCurrentFrame.sequenceID ∨ s.getCurrentFrame.empty = false ∨
          s.getIsMapping = false) ∧
      (f.sequenceID > s.getCurrentFrame.sequenceID ∨ s.getCurrentFrame.empty = false ∨
          s.getIsMapping = false →
        ((s.setCurrentFrame f).1.waitForNewFrame N).isSome = true) := by
  have key : (s.setCurrentFrame f).1.waitPredicate N = true ↔
      f.sequenceID > s.getCurrentFrame.sequenceID ∨ s.getCurrentFrame.empty = false ∨
        s.getIsMapping = false := by
    rw [waitPredicate_eq_true_iff]
    simp only [SharedContext.getCurrentFrame, SharedContext.getIsMapping]
    by_cases h : f.sequenceID > s.currentFrame.sequenceID
    · simp [SharedContext.setCurrentFrame, h, h1, h2]
    · have h3 : s.currentFrame.sequenceID > N := lt_of_lt_of_le h2 (not_lt.mp h)
      simp [SharedContext.setCurrentFrame, h, h3]
  refine ⟨key, ?_⟩
  intro h
  rw [waitForNewFrame_isSome]
  exact key.mpr h

/-- Witness for C14, amended: on a fresh coordinator with both flags on, publishing
`sampleFrame 5` lets `waitForNewFrame(0)` return. -/
theorem setCurrentFrame_releases_waiter_witness :
    (sampleFrame 5).empty = false ∧ (sampleFrame 5).sequenceID > 0 ∧
      ((sampleContextWaiting.setCurrentFrame (sampleFrame 5)).1.waitForNewFrame 0).isSome
        = true :=
  ⟨by decide, by decide,
   (setCurrentFrame_releases_waiter sampleContextWaiting (sampleFrame 5) 0 (by decide)
      (by decide)).2 (Or.inl (by decide))⟩

/-- C15 at a failing input: with both flags on and no frame published, a waiter in
`waitForNewFrame(-1)` is blocked, and after `setIsInferencing(false)`, as after
`setIsInferencing(true)`, the wait predicate is still false and the call does not return;
`setIsMapping(false)` in the same state does release it. -/
theorem setIsInferencing_waiter_still_blocked :
    sampleContextWaiting.waitForNewFrame (-1) = none ∧
      (sampleContextWaiting.setIsInferencing false).waitPredicate (-1) = false ∧
      (sampleContextWaiting.setIsInferencing false).waitForNewFrame (-1) = none ∧
      (sampleContextWaiting.setIsInferencing true).waitForNewFrame (-1) = none ∧
      ((sampleContextWaiting.setIsMapping false).waitForNewFrame (-1)).isSome = true := by
  decide

/-- C16 at a failing input: with both flags on and the non-empty frame numbered 5 stored, a
waiter sits blocked in `waitForNewFrame(5)`. The first call of `stop()`, `setIsMapping(false)`,
makes its wait predicate true while inferencing is still on, so the waiter returns the stored
frame 5, image included, and the inference loop hands that image to `predict`; only a call made
after the second call of `stop()`, `setIsInferencing(false)`, returns the empty frame. -/
theorem stop_waiter_gets_stored_frame :
    sampleContextBusy.waitForNewFrame 5 = none ∧
      SystemManager.stopSteps { isRunning := true } sampleContextBusy
        = [sampleContextBusy.setIsMapping false,
           (sampleContextBusy.setIsMapping false).setIsInferencing false] ∧
      (SystemManager.stop { isRunning := true } sampleContextBusy).2
        = (sampleContextBusy.setIsMapping false).setIsInferencing false ∧
      (sampleContextBusy.setIsMapping false).waitForNewFrame 5 = some (sampleFrame 5) ∧
      (sampleFrame 5).empty = false ∧
      (processFrame samplePredict (sampleContextBusy.setIsMapping false) 5
        (sampleFrame 5)).predicted = [sampleMat] ∧
      ((sampleContextBusy.setIsMapping false).setIsInferencing false).waitForNewFrame 5
        = some {} := by
  decide

/-- C17: after `setCurrentDepthFrame(f)`, whatever the sequence number of `f`,
`getCurrentDepthFrame()` is `f`, and the raw frame, the configuration, its version and both
flags are as before. -/
theorem setCurrentDepthFrame_getCurrentDepthFrame (s : SharedContext) (f : FrameData) :
    (s.setCurrentDepthFrame f).1.getCurrentDepthFrame = f ∧
      (s.setCurrentDepthFrame f).1.getCurrentFrame = s.getCurrentFrame ∧
      (s.setCurrentDepthFrame f).1.getCurrentCaptureConfig = s.getCurrentCaptureConfig ∧
      (s.setCurrentDepthFrame f).1.getCaptureConfigVersion = s.getCaptureConfigVersion ∧
      (s.setCurrentDepthFrame f).1.getIsMapping = s.getIsMapping ∧
      (s.setCurrentDepthFrame f).1.getIsInferencing = s.getIsInferencing :=
  ⟨rfl, rfl, rfl, rfl, rfl, rfl⟩

/-- C18, as stated, fails: a frame whose image handle is set and points at a `cv::Mat`
without data is empty although the handle is not null. -/
theorem empty_with_image_handle :
    sampleFrameHollow.image ≠ none ∧ sampleFrameHollow.empty = true := by
  decide

/-- C18, amended: `empty()` is true exactly when the image handle is null or the image it
points at is itself empty; a default-constructed frame is empty and has sequence number -1. -/
theorem empty_iff (f : FrameData) :
    (f.empty = true ↔ f.image = none ∨ ∃ m, f.image = some m ∧ m.empty = true) ∧
      ({} : FrameData).empty = true ∧ ({} : FrameData).image = none ∧
      ({} : FrameData).sequenceID = -1 := by
  refine ⟨?_, rfl, rfl, rfl⟩
  unfold FrameData.empty
  cases f.image with
  | none => simp
  | some m => simp

/-- C19: `a == b` holds exactly when `a` and `b` agree on the capture method, the window name,
the window handle and the frame rate, and `a != b` is the negation of `a == b`. -/
theorem CaptureConfig_eq_iff_fields (a b : CaptureConfig) :
    (a.eq b = true ↔
        a.Method = b.Method ∧ a.targetWindowName = b.targetWindowName ∧
          a.targetHwnd = b.targetHwnd ∧ a.captureFps = b.captureFps) ∧
      a.ne b = !(a.eq b) ∧
      (a.ne b = true ↔ ¬ (a.eq b = true)) := by
  refine ⟨?_, ?_, ?_⟩
  · rw [CaptureConfig.eq_eq_true_iff]
    cases a
    cases b
    simp
  · simp [CaptureConfig.eq]
  · simp [CaptureConfig.eq]

/-- C20: `setConfig` with a configuration equal to the active one returns the grabber as it
was; with a differing one it makes it the active configuration and installs a newly
constructed `GDICaptureStrategy` for the methods GDI and DirectX, and for WinGC the
`WinGCCaptureStrategy` its constructor yields (the call is left by the constructor's exception
when that one throws). -/
theorem setConfig_strategy (d : Direct3D) (g : ScreenGrabber) (config : CaptureConfig) :
    (g.activeConfig.eq config = true → g.setConfig d config = Except.ok g) ∧
      (g.activeConfig.eq config = false →
        (config.Method = CaptureMethod.GDI ∨ config.Method = CaptureMethod.DirectX →
          g.setConfig d config = Except.ok
            { g with activeConfig := config
                     strategy := some (CaptureStrategy.gdi GDICaptureStrategy.new) }) ∧
        (config.Method = CaptureMethod.WinGC →
          (∀ st, WinGCCaptureStrategy.new d = Except.ok st →
            g.setConfig d config = Except.ok
              { g with activeConfig := config
                       strategy := some (CaptureStrategy.winGC st) }) ∧
          (∀ e, WinGCCaptureStrategy.new d = Except.error e →
            g.setConfig d config = Except.error e))) := by
  refine ⟨?_, ?_⟩
  · intro h
    simp [ScreenGrabber.setConfig, h]
  · intro h
    refine ⟨?_, ?_⟩
    · intro hm
      rcases hm with hm | hm <;> simp [ScreenGrabber.setConfig, h, hm]
    · intro hm
      refine ⟨?_, ?_⟩
      · intro st hst
        simp [ScreenGrabber.setConfig, h, hm, hst]
      · intro e he
        simp [ScreenGrabber.setConfig, h, hm, he]

/-- Witness for C20: a freshly constructed grabber is given the GDI configuration for `X`, and
a WinGC configuration with handle 3 on a platform where the constructor succeeds. -/
theorem setConfig_strategy_witness :
    ScreenGrabber.new.setConfig sampleDirect3D (sampleConfigX 0) = Except.ok
        { ScreenGrabber.new with
          activeConfig := sampleConfigX 0
          strategy := some (CaptureStrategy.gdi GDICaptureStrategy.new) } ∧
      ScreenGrabber.new.setConfig sampleDirect3D { targetHwnd := 3 } = Except.ok
        { ScreenGrabber.new with
          activeConfig := { targetHwnd := 3 }
          strategy := some (CaptureStrategy.winGC
            { d3d11Device := 11, d3d11Context := 12, device := 15 }) } :=
  ⟨((setConfig_strategy sampleDirect3D ScreenGrabber.new (sampleConfigX 0)).2 (by decide)).1
      (Or.inl rfl),
   (((setConfig_strategy sampleDirect3D ScreenGrabber.new { targetHwnd := 3 }).2
      (by decide)).2 rfl).1 _ rfl⟩

/-- C21 at a failing input: the first `grab()` of a freshly constructed grabber against a
fresh coordinator finds the versions equal (0 and 0), skips `setConfig` and returns with the
`GDICaptureStrategy` of the constructor installed, while the coordinator's configuration has
method WinGC, for which the policy prescribes a `WinGCCaptureStrategy`. -/
theorem grab_fresh_backend_not_prescribed :
    ScreenGrabber.new.grab sampleDirect3D sampleBackends {}
        = Except.ok { grabber := ScreenGrabber.new, image := none, captureCalls := 0 } ∧
      ScreenGrabber.new.strategy = some (CaptureStrategy.gdi GDICaptureStrategy.new) ∧
      ({} : SharedContext).getCurrentCaptureConfig.Method = CaptureMethod.WinGC ∧
      prescribedFor ({} : SharedContext).getCurrentCaptureConfig.Method
        (CaptureStrategy.gdi GDICaptureStrategy.new) = false ∧
      (grabPoints {} [SysOp.grab sampleDirect3D sampleBackends]).map
          (fun sys => sys.grabber.strategy.map
            (prescribedFor sys.ctx.getCurrentCaptureConfig.Method))
        = [some false] :=
  ⟨rfl, rfl, rfl, rfl, rfl⟩

/-- C23 at a failing input: one successful capture on a fresh coordinator hands two frames to
`setCurrentFrame`, both numbered 1 (the second being the moved-from object without its image),
so the sequence numbers passed are not strictly increasing; over the run `sampleWorkerOps`,
with two successful captures, they are 1, 1, 2, 2. -/
theorem publishCapture_passes_same_id_twice :
    (publishCapture {} 0 (some sampleMat) 0 0).passed.map (fun f => f.sequenceID) = [1, 1] ∧
      ¬ List.Pairwise (fun a b : Int => a < b)
        ((publishCapture {} 0 (some sampleMat) 0 0).passed.map (fun f => f.sequenceID)) ∧
      (publishCapture {} 0 (some sampleMat) 0 0).passed.map (fun f => f.image)
        = [some sampleMat, none] ∧
      (capturePassed {} 0 sampleWorkerOps).map (fun f => f.sequenceID) = [1, 1, 2, 2] := by
  decide

/-- C24: for a configured frame rate `fps > 0` and a work time of `w` milliseconds the loop
sleeps `max 0 (1000 / fps - w)` milliseconds; `sleep_for` is called exactly when that budget is
positive, and then with the positive budget; at 30 frames per second and 40 ms of work there is
no sleep. -/
theorem sleptMs_eq_max (config : CaptureConfig) (w : Int) (h : config.captureFps > 0) :
    sleptMs config w = max 0 (1000 / config.captureFps - w) ∧
      ((sleepFor config w).isSome = true ↔ 1000 / config.captureFps - w > 0) ∧
      (∀ t, sleepFor config w = some t → t > 0 ∧ t = 1000 / config.captureFps - w) ∧
      (config.captureFps = 30 → sleepFor config 40 = none ∧ sleptMs config 40 = 0) := by
  have hi : targetIntervalMs config = 1000 / config.captureFps := by
    simp only [targetIntervalMs, targetFps, h, if_true]
    exact Int.tdiv_eq_ediv (by decide) (le_of_lt h)
  have hs : ∀ v, sleepFor config v
      = if 1000 / config.captureFps - v > 0 then some (1000 / config.captureFps - v)
        else none := by
    intro v
    simp only [sleepFor, sleepTime, hi]
  refine ⟨?_, ?_, ?_, ?_⟩
  · simp only [sleptMs, hs]
    by_cases hp : 1000 / config.captureFps - w > 0
    · simp only [hp, if_true]
      exact (max_eq_right (le_of_lt hp)).symm
    · simp only [hp, if_false]
      exact (max_eq_left (not_lt.mp hp)).symm
  · rw [hs]
    by_cases hp : 1000 / config.captureFps - w > 0 <;> simp [hp]
  · intro t ht
    rw [hs] at ht
    by_cases hp : 1000 / config.captureFps - w > 0
    · simp only [hp, if_true, Option.some.injEq] at ht
      rw [← ht]
      exact ⟨hp, rfl⟩
    · simp [hp] at ht
  · intro h30
    have h40 : sleepFor config 40 = none := by
      rw [hs, h30]
      decide
    refine ⟨h40, ?_⟩
    simp only [sleptMs, h40]

/-- Witness for C24: the default configuration (30 frames per second) with 10 ms of work sleeps
23 ms. -/
theorem sleptMs_eq_max_witness :
    ({} : CaptureConfig).captureFps > 0 ∧ sleepFor {} 10 = some 23 ∧
      sleptMs {} 10 = max 0 (1000 / ({} : CaptureConfig).captureFps - 10) :=
  ⟨by decide, by decide, (sleptMs_eq_max {} 10 (by decide)).1⟩

/-- C25: in one iteration of the inference loop, an empty frame returned by `waitForNewFrame`
leaves the coordinator and `lastProcessedID` as they were and `predict` is not called; a
non-empty frame `g` is handed to `predict` once, the depth frame stored afterwards carries
`g.sequenceID`, and `lastProcessedID` becomes `g.sequenceID`; with inferencing on, the iteration
is exactly this processing of what `waitForNewFrame(lastProcessedID)` returns. -/
theorem processFrame_spec (predict : Mat → DepthResult) (ctx : SharedContext)
    (lastProcessedID : Int) (g : FrameData) :
    (g.empty = true →
        processFrame predict ctx lastProcessedID g
          = { ctx := ctx, lastProcessedID := lastProcessedID, predicted := [] }) ∧
      (g.empty = false →
        (processFrame predict ctx lastProcessedID g).ctx.getCurrentDepthFrame.sequenceID
            = g.sequenceID ∧
          (processFrame predict ctx lastProcessedID g).lastProcessedID = g.sequenceID ∧
          (processFrame predict ctx lastProcessedID g).predicted = g.image.toList ∧
          (processFrame predict ctx lastProcessedID g).predicted.length = 1 ∧
          (processFrame predict ctx lastProcessedID g).ctx.getCurrentFrame
            = ctx.getCurrentFrame) ∧
      (ctx.getIsInferencing = true → ctx.waitForNewFrame lastProcessedID = some g →
        inferenceIteration predict ctx lastProcessedID
          = some (processFrame predict ctx lastProcessedID g)) := by
  refine ⟨?_, ?_, ?_⟩
  · intro he
    simp [processFrame, he]
  · intro he
    cases hi : g.image with
    | none => simp [FrameData.empty, hi] at he
    | some img =>
      have hp : processFrame predict ctx lastProcessedID g
          = { ctx := ((ctx.setInferenceTime (predict img).inferTimeMs).setCurrentDepthFrame
                { image := some (predict img).visualDepth
                  rawDepth := some (predict img).depthMap
                  intrinsics := (predict img).intrinsics
                  extrinsics := (predict img).extrinsics
                  sequenceID := g.sequenceID
                  captureDurationMs := (predict img).inferTimeMs }).1
              lastProcessedID := g.sequenceID
              predicted := [img] } := by
        simp [processFrame, he, hi]
      rw [hp]
      exact ⟨rfl, rfl, rfl, rfl, rfl⟩
  · intro hinf hw
    simp [inferenceIteration, hinf, hw]

/-- Witness for C25: with both flags on and `sampleFrame 5` stored, the iteration for
`lastProcessedID = -1` stores a depth frame numbered 5 and sets `lastProcessedID` to 5. -/
theorem processFrame_spec_witness :
    inferenceIteration samplePredict sampleContextBusy (-1)
        = some (processFrame samplePredict sampleContextBusy (-1) (sampleFrame 5)) ∧
      (processFrame samplePredict sampleContextBusy (-1)
        (sampleFrame 5)).ctx.getCurrentDepthFrame.sequenceID = (sampleFrame 5).sequenceID ∧
      (processFrame samplePredict sampleContextBusy (-1) (sampleFrame 5)).lastProcessedID
        = (sampleFrame 5).sequenceID :=
  ⟨(processFrame_spec samplePredict sampleContextBusy (-1) (sampleFrame 5)).2.2
      (by decide) (by decide),
   ((processFrame_spec samplePredict sampleContextBusy (-1) (sampleFrame 5)).2.1
      (by decide)).1,
   ((processFrame_spec samplePredict sampleContextBusy (-1) (sampleFrame 5)).2.1
      (by decide)).2.1⟩

/-- C29: for every configured `captureFps` the divisor `targetFps` is at least 1 (a
non-positive rate is replaced by 30), so `1000 / targetFps` never divides by zero; the interval
lies between 0 and 1000 ms and is 0 exactly when `captureFps > 1000`. -/
theorem targetIntervalMs_bounds (config : CaptureConfig) :
    targetFps config ≥ 1 ∧ targetFps config ≠ 0 ∧
      (config.captureFps ≤ 0 → targetFps config = 30 ∧ targetIntervalMs config = 33) ∧
      0 ≤ targetIntervalMs config ∧ targetIntervalMs config ≤ 1000 ∧
      (targetIntervalMs config = 0 ↔ config.captureFps > 1000) := by
  have h1 : targetFps config ≥ 1 := by
    unfold targetFps
    split <;> omega
  have hi : targetIntervalMs config = 1000 / targetFps config :=
    Int.tdiv_eq_ediv (by decide) (by omega)
  have hnp : config.captureFps ≤ 0 → targetFps config = 30 := by
    intro h
    simp [targetFps, not_lt.mpr h]
  refine ⟨h1, by omega, ?_, ?_, ?_, ?_⟩
  · intro h
    refine ⟨hnp h, ?_⟩
    rw [hi, hnp h]
    decide
  · rw [hi]
    exact Int.ediv_nonneg (by decide) (by omega)
  · rw [hi]
    exact Int.ediv_le_self _ (by decide)
  · rw [hi]
    constructor
    · intro h0
      by_contra hle
      have hle2 : config.captureFps ≤ 1000 := not_lt.mp hle
      have hf : targetFps config ≤ 1000 := by
        unfold targetFps
        split <;> omega
      have : (1 : Int) ≤ 1000 / targetFps config :=
        (Int.le_ediv_iff_mul_le (by omega)).mpr (by omega)
      omega
    · intro hgt
      have hf : targetFps config = config.captureFps := by
        simp [targetFps, (by omega : config.captureFps > 0)]
      rw [hf]
      exact Int.ediv_eq_zero_of_lt (by decide) hgt

/-- Witness for C29: a configured rate of 0 is replaced by 30 and the interval is 33 ms. -/
theorem targetIntervalMs_bounds_witness :
    targetFps { captureFps := 0 } = 30 ∧ targetIntervalMs { captureFps := 0 } = 33 :=
  (targetIntervalMs_bounds { captureFps := 0 }).2.2.1 (by decide)

/-- C28, as stated, fails: in the run of `2 ^ 63` capturing iterations from a fresh coordinator
(`tickRun`, a run of the capture loop alone for every length) the last iteration finds the
`long long` counter at `2 ^ 63 - 1`; the counter wraps, both
`setCurrentFrame` calls of that iteration are discarded, and the stored frame keeps sequence
number `2 ^ 63 - 1` and the image of the capture before, not number `2 ^ 63` and the image just
captured. -/
theorem captureRun_counter_wraps :
    (∀ n, soleProducer (tickRun n)) ∧
      (capturedImages (tickRun (2 ^ 63))).length = 2 ^ 63 ∧
      (capturedImages (tickRun (2 ^ 63))).getLast? = some (imageNo (2 ^ 63)) ∧
      (captureRun {} 0 (tickRun (2 ^ 63))).1.getCurrentFrame.sequenceID = 2 ^ 63 - 1 ∧
      (captureRun {} 0 (tickRun (2 ^ 63))).1.getCurrentFrame.sequenceID
        ≠ ((capturedImages (tickRun (2 ^ 63))).length : Int) ∧
      (captureRun {} 0 (tickRun (2 ^ 63))).1.getCurrentFrame.image
        = some (imageNo (2 ^ 63 - 1)) ∧
      (captureRun {} 0 (tickRun (2 ^ 63))).1.getCurrentFrame.image
        ≠ some (imageNo (2 ^ 63)) :=
  ⟨soleProducer_tickRun, captureRun_tickRun_stale (2 ^ 63) (by norm_num)⟩

/-- C28, amended: from a fresh coordinator with the capture loop as the only caller of
`setCurrentFrame` and fewer than `2 ^ 63` published captures, the counter equals the number
of published captures `k`; the stored frame is the initial one while `k = 0` and afterwards
carries the last captured image, is non-empty and has sequence number `k`; and at every
publishing iteration the loop passes the frame and then its moved-from, image-less remainder
under the same number, of which the second call is discarded: it leaves the coordinator
exactly as it was. -/
theorem captureRun_fresh (ops : List WorkerOp) (h : soleProducer ops)
    (hb : (capturedImages ops).length < 2 ^ 63) :
    (captureRun {} 0 ops).2 = (capturedImages ops).length ∧
      (capturedImages ops = [] → (captureRun {} 0 ops).1.getCurrentFrame = {}) ∧
      (∀ m, (capturedImages ops).getLast? = some m →
        (captureRun {} 0 ops).1.getCurrentFrame.image = some m ∧
        (captureRun {} 0 ops).1.getCurrentFrame.empty = false ∧
        (captureRun {} 0 ops).1.getCurrentFrame.sequenceID = (capturedImages ops).length) ∧
      (∀ pre m d t rest, ops = pre ++ WorkerOp.tick (some m) d t :: rest → m.empty = false →
        (publishCapture (captureRun {} 0 pre).1 (captureRun {} 0 pre).2 (some m) d t).passed
            = [{ image := some m, sequenceID := (captureRun {} 0 pre).2 + 1, timestamp := t
                 captureDurationMs := d },
               { sequenceID := (captureRun {} 0 pre).2 + 1, timestamp := t
                 captureDurationMs := d }] ∧
          ((((captureRun {} 0 pre).1.setCurrentFrame
              { image := some m, sequenceID := (captureRun {} 0 pre).2 + 1, timestamp := t
                captureDurationMs := d }).1.setCaptureTime d).setCurrentFrame
              { sequenceID := (captureRun {} 0 pre).2 + 1, timestamp := t
                captureDurationMs := d }).1
            = ((captureRun {} 0 pre).1.setCurrentFrame
              { image := some m, sequenceID := (captureRun {} 0 pre).2 + 1, timestamp := t
                captureDurationMs := d }).1.setCaptureTime d ∧
          (publishCapture (captureRun {} 0 pre).1 (captureRun {} 0 pre).2 (some m) d
            t).ctx.getCurrentFrame.image = some m) := by
  have hbi : (0 : Int) + ((capturedImages ops).length : Int) < 2 ^ 63 := by omega
  obtain ⟨h1, h2, h3⟩ := captureRun_spec ops {} 0 (by decide) (le_refl _) hbi h
  refine ⟨by simpa using h1, ?_, ?_, ?_⟩
  · intro hnil
    rw [SharedContext.getCurrentFrame, h2 hnil]
  · intro m hm
    obtain ⟨hi, hs⟩ := h3 m hm
    refine ⟨hi, ?_, by simpa [SharedContext.getCurrentFrame] using hs⟩
    have hne := capturedImages_nonempty ops m (List.mem_of_getLast?_eq_some hm)
    simp only [SharedContext.getCurrentFrame, FrameData.empty, hi]
    exact hne
  · intro pre m d t rest hops hm
    have hpre : soleProducer pre := by
      rw [hops] at h
      exact soleProducer_of_append _ _ h
    have hlen : (capturedImages pre).length + 1 ≤ (capturedImages ops).length := by
      rw [hops, capturedImages_append]
      simp [capturedImages, hm]
    have hpb : ((capturedImages pre).length : Int) < 2 ^ 63 := by omega
    have hle := captureRun_fresh_le pre hpre hpb
    obtain ⟨hk, _, _⟩ := captureRun_spec pre {} 0 (by decide) (le_refl _) (by omega) hpre
    have hp := publishCapture_success (captureRun {} 0 pre).1 (captureRun {} 0 pre).2 m d t
      hm hle (by omega) (by omega)
    refine ⟨by rw [hp], ?_, by rw [hp]; rfl⟩
    have hgt : (captureRun {} 0 pre).2 + 1 > (captureRun {} 0 pre).1.currentFrame.sequenceID := by
      omega
    simp [SharedContext.setCurrentFrame, SharedContext.setCaptureTime, hgt]

/-- Witness for C28, amended: after a capture, a flag change, a failed grab and a second
capture, the stored frame carries the captured image under sequence number 2. -/
theorem captureRun_fresh_witness :
    soleProducer sampleWorkerOps ∧ (capturedImages sampleWorkerOps).length < 2 ^ 63 ∧
      (captureRun {} 0 sampleWorkerOps).1.getCurrentFrame.image = some sampleMat ∧
      (captureRun {} 0 sampleWorkerOps).1.getCurrentFrame.empty = false ∧
      (captureRun {} 0 sampleWorkerOps).1.getCurrentFrame.sequenceID = 2 :=
  ⟨⟨fun _ hf => Op.noConfusion hf, trivial⟩, by decide,
   (captureRun_fresh sampleWorkerOps ⟨fun _ hf => Op.noConfusion hf, trivial⟩
      (by decide)).2.2.1 sampleMat (by decide)⟩

/-- C26: along every run of coordinator operations from a fresh coordinator with fewer than
`2 ^ 64` configuration changes, of any two states of the run the later one has a version at
least the earlier one's, and if `getCaptureConfigVersion()` is the same in both, the stored
configurations are equal (also by the source's `==`). -/
theorem configVersion_identifies_config (ops : List Op)
    (h : Op.configChanges {} ops < 2 ^ 64) :
    List.Pairwise
      (fun a b : SharedContext =>
        a.getCaptureConfigVersion ≤ b.getCaptureConfigVersion ∧
          (a.getCaptureConfigVersion = b.getCaptureConfigVersion →
            a.getCurrentCaptureConfig = b.getCurrentCaptureConfig ∧
              a.getCurrentCaptureConfig.eq b.getCurrentCaptureConfig = true))
      (({} : SharedContext) :: statesAfter {} ops) := by
  have key : ∀ (l : List Op) (s : SharedContext),
      s.configVersion + Op.configChanges s l < 2 ^ 64 →
      List.Pairwise
        (fun a b : SharedContext =>
          a.getCaptureConfigVersion ≤ b.getCaptureConfigVersion ∧
            (a.getCaptureConfigVersion = b.getCaptureConfigVersion →
              a.getCurrentCaptureConfig = b.getCurrentCaptureConfig ∧
                a.getCurrentCaptureConfig.eq b.getCurrentCaptureConfig = true))
        (s :: statesAfter s l) := by
    intro l
    induction l with
    | nil =>
      intro s _
      simp [statesAfter]
    | cons op l ih =>
      intro s hb
      rw [List.pairwise_cons]
      constructor
      · intro t ht
        have h1 := statesAfter_version (op :: l) s hb t ht
        refine ⟨h1.1, fun he => ?_⟩
        have h2 := h1.2 he
        exact ⟨h2, (CaptureConfig.eq_eq_true_iff _ _).mpr h2⟩
      · simp only [statesAfter]
        apply ih
        simp only [Op.configChanges] at hb
        by_cases hc : (Op.apply s op).currentCaptureConfig = s.currentCaptureConfig
        · rw [Op.apply_configVersion_of_eq s op hc]
          simp only [hc, if_true, Nat.zero_add] at hb
          exact hb
        · rw [Op.apply_configVersion_of_ne s op hc]
          simp only [hc, if_false] at hb
          rw [Nat.mod_eq_of_lt (by omega)]
          omega
  apply key
  simpa using h

/-- Witness for C26: the run `sampleOps` changes the configuration once; its four states have
versions 0, 1, 1, 1. -/
theorem configVersion_identifies_config_witness :
    Op.configChanges {} sampleOps < 2 ^ 64 ∧
      (statesAfter {} sampleOps).map (fun t => t.getCaptureConfigVersion) = [1, 1, 1] ∧
      List.Pairwise
        (fun a b : SharedContext =>
          a.getCaptureConfigVersion ≤ b.getCaptureConfigVersion ∧
            (a.getCaptureConfigVersion = b.getCaptureConfigVersion →
              a.getCurrentCaptureConfig = b.getCurrentCaptureConfig ∧
                a.getCurrentCaptureConfig.eq b.getCurrentCaptureConfig = true))
        (({} : SharedContext) :: statesAfter {} sampleOps) :=
  ⟨by decide, by decide, configVersion_identifies_config sampleOps (by decide)⟩

/-- C27, as stated, fails: after `2 ^ 64` configuration calls that each change the stored
configuration, the coordinator's version is back at 0, the value a fresh grabber has cached;
the following `grab()` skips the read and returns with the default configuration (30 frames
per second) active while the coordinator's current one has 31. -/
theorem grab_after_version_wrap :
    ∃ p, grabPoints {} (stormOps (2 ^ 64) ++ [SysOp.grab sampleDirect3D sampleBackends]) = [p] ∧
      p.grabber.localConfigVersion = p.ctx.getCaptureConfigVersion ∧
      p.grabber.activeConfig.captureFps = 30 ∧
      p.ctx.getCurrentCaptureConfig.captureFps = 31 ∧
      p.grabber.activeConfig ≠ p.ctx.getCurrentCaptureConfig := by
  have hg := grabPoints_config_calls
    (fun i => (Win32.allResolveTo 0, sampleStormConfig (i + 1)))
    [SysOp.grab sampleDirect3D sampleBackends] (List.range (2 ^ 64)) {}
  have hc := ctxAfter_stormOps (2 ^ 64)
  simp only [stormOps] at hc
  have hv : (2 : Nat) ^ 64 % 2 ^ 64 = 0 := by norm_num
  have hcfg : sampleStormConfig (2 ^ 64) = { captureFps := 31 } := by
    simp only [sampleStormConfig]
    norm_num
  rw [hv, hcfg] at hc
  refine ⟨{ ctx := { configVersion := 0, currentCaptureConfig := { captureFps := 31 } }
            grabber := ScreenGrabber.new }, ?_, rfl, rfl, rfl, by decide⟩
  simp only [stormOps]
  rw [hg]
  show grabPoints
    { ctx := ctxAfter {} ((List.range (2 ^ 64)).map
        (fun i => SysOp.setCurrentCaptureConfig (Win32.allResolveTo 0)
          (sampleStormConfig (i + 1))))
      grabber := ScreenGrabber.new } [SysOp.grab sampleDirect3D sampleBackends] = _
  rw [hc]
  rfl

/-- C27, amended: in a sequential run of `setCurrentCaptureConfig` and `grab()` calls from a
freshly constructed grabber and a fresh coordinator with fewer than `2 ^ 64` configuration
changes, after every `grab()` that returns the cached version is the coordinator's
`configVersion` and the active configuration is the coordinator's current one (also by the
source's `==`), whether or not the grab read the configuration. -/
theorem grab_keeps_config_synced (ops : List SysOp) (h : configChanges {} ops < 2 ^ 64) :
    ∀ p ∈ grabPoints {} ops,
      p.grabber.localConfigVersion = p.ctx.getCaptureConfigVersion ∧
        p.grabber.activeConfig = p.ctx.getCurrentCaptureConfig ∧
        p.grabber.activeConfig.eq p.ctx.getCurrentCaptureConfig = true := by
  intro p hp
  have hinv := grabPoints_synced ops {} 0 rfl (by decide) (fun _ => rfl)
    (by simpa using h) (by decide) p hp
  exact ⟨hinv.1, hinv.2, (CaptureConfig.eq_eq_true_iff _ _).mpr hinv.2⟩

/-- Witness for C27, amended: in `sampleSysOps` the first grab skips the read, the second one
reads the new configuration, the third one skips again; all three end in agreement with the
coordinator. -/
theorem grab_keeps_config_synced_witness :
    configChanges {} sampleSysOps < 2 ^ 64 ∧
      (grabPoints {} sampleSysOps).length = 3 ∧
      (grabPoints {} sampleSysOps).all
          (fun p => decide (p.grabber.localConfigVersion = p.ctx.getCaptureConfigVersion) &&
            decide (p.grabber.activeConfig = p.ctx.getCurrentCaptureConfig)) = true :=
  ⟨by decide, by decide,
   List.all_eq_true.mpr (fun p hp => by
    have hq := grab_keeps_config_synced sampleSysOps (by decide) p hp
    simp [hq.1, hq.2.1])⟩

/-- C30: for every byte sequence `d`, `base64_encode(d)` is the padded Base64 encoding of RFC
4648; its length is `4 * ((|d| + 2) / 3)`, that is four times `|d| / 3` rounded up, a multiple
of four; and the result is the same with `val` an unbounded integer and with `val` a 32-bit
`int` wrapping modulo `2 ^ 32`. -/
theorem base64_encode_eq_rfc (d : List (Fin 256)) :
    base64_encode d = base64Rfc d ∧
      (base64_encode d).length = 4 * ((d.length + 2) / 3) ∧
      (base64_encode d).length % 4 = 0 ∧
      base64_encode32 d = base64_encode d := by
  have h1 : base64_encode d = base64Rfc d := by
    have h := encode_fold id normOK_id d {} rfl rfl
    simpa [base64_encode, base64_encode_with] using h
  have h2 : base64_encode32 d = base64Rfc d := by
    have h := encode_fold wrapInt32 normOK_wrapInt32 d {} rfl rfl
    simpa [base64_encode32, base64_encode_with] using h
  refine ⟨h1, ?_, ?_, ?_⟩
  · rw [h1, base64Rfc_length]
  · rw [h1, base64Rfc_length]
    omega
  · rw [h1, h2]

end ZYCDepth
